import Mathlib

/-!
Verification development for the LATIN interpreter (src/latin.py).
The Python source is shallowly embedded: every definition below mirrors
one function or data table of the source, with Python dicts rendered as
insertion-ordered association lists, Python ints as Lean Int, and Python
exceptions as explicit result constructors.
-/

set_option maxHeartbeats 2000000

namespace Latin

/-- The single-quote character (codepoint 39), used to build Python-style
error messages such as ERRATUM messages quoting an identifier. -/
def apos : String := String.singleton (Char.ofNat 39)

/-- Wrap a string in single quotes, as the Python f-strings do. -/
def sq (s : String) : String := apos ++ s ++ apos

/-! ## Roman codec (class RomanNumeralParser) -/

/-- ROMAN_VALUES: value of a single Roman numeral character, none if unknown. -/
def ROMAN_VALUES (c : Char) : Option Nat :=
  if c = 'M' then some 1000
  else if c = 'D' then some 500
  else if c = 'C' then some 100
  else if c = 'L' then some 50
  else if c = 'X' then some 10
  else if c = 'V' then some 5
  else if c = 'I' then some 1
  else none

/-- The loop body of RomanNumeralParser.parse: the input list is the
reversed numeral, prev the previous character value, total the running
total.  Returns the final (total, prev), or none on an unknown character. -/
def parseGo : List Char → Nat → Int → Option (Int × Nat)
  | [], prev, total => some (total, prev)
  | c :: rest, prev, total =>
    match ROMAN_VALUES c with
    | none => none
    | some v => parseGo rest v (if v < prev then total - v else total + v)

/-- RomanNumeralParser.parse: convert a Roman numeral string to an integer;
none for the empty string, an unknown character, or a non-positive total. -/
def romanParse (s : String) : Option Int :=
  if s.data = [] then none
  else
    match parseGo s.data.reverse 0 0 with
    | none => none
    | some (t, _) => if 0 < t then some t else none

/-- String repetition (Python numeral * count). -/
def repeatChars (cs : List Char) : Nat → List Char
  | 0 => []
  | n + 1 => cs ++ repeatChars cs n

/-- The greedy value table of RomanNumeralParser.to_roman. -/
def ROMAN_TABLE : List (Nat × List Char) :=
  [(1000, ['M']), (900, ['C', 'M']), (500, ['D']), (400, ['C', 'D']),
   (100, ['C']), (90, ['X', 'C']), (50, ['L']), (40, ['X', 'L']),
   (10, ['X']), (9, ['I', 'X']), (5, ['V']), (4, ['I', 'V']), (1, ['I'])]

/-- The loop of to_roman: greedily emit count = num / value copies of each
numeral and continue with num - value * count. -/
def toRomanGo : Nat → List (Nat × List Char) → List Char
  | _, [] => []
  | num, (v, numeral) :: rest =>
    repeatChars numeral (num / v) ++ toRomanGo (num - v * (num / v)) rest

/-- RomanNumeralParser.to_roman: NIHIL for num ≤ 0, else the greedy numeral. -/
def to_roman (n : Int) : String :=
  if n ≤ 0 then "NIHIL" else ⟨toRomanGo n.toNat ROMAN_TABLE⟩

/-! ## Declension table (class LatinDeclension) -/

/-- One entry of the DECLENSIONS dict: the five oblique forms. -/
structure Decl where
  gen : String
  acc : String
  dat : String
  abl : String
  voc : String
deriving DecidableEq, Repr

/-- The built-in DECLENSIONS table, in Python dict insertion order. -/
def DECLENSIONS : List (String × Decl) :=
  [("NUMERUS", ⟨"NUMERI", "NUMERUM", "NUMERO", "NUMERO", "NUMERE"⟩),
   ("PRIMUS", ⟨"PRIMI", "PRIMUM", "PRIMO", "PRIMO", "PRIME"⟩),
   ("SECUNDUS", ⟨"SECUNDI", "SECUNDUM", "SECUNDO", "SECUNDO", "SECUNDE"⟩),
   ("TERTIUS", ⟨"TERTII", "TERTIUM", "TERTIO", "TERTIO", "TERTIE"⟩),
   ("QUARTUS", ⟨"QUARTI", "QUARTUM", "QUARTO", "QUARTO", "QUARTE"⟩),
   ("QUINTUS", ⟨"QUINTI", "QUINTUM", "QUINTO", "QUINTO", "QUINTE"⟩),
   ("MAXIMVS", ⟨"MAXIMI", "MAXIMVM", "MAXIMO", "MAXIMO", "MAXIME"⟩),
   ("AMICUS", ⟨"AMICI", "AMICUM", "AMICO", "AMICO", "AMICE"⟩),
   ("SERVUS", ⟨"SERVII", "SERVUM", "SERVO", "SERVO", "SERVE"⟩),
   ("DOMINUS", ⟨"DOMINI", "DOMINUM", "DOMINO", "DOMINO", "DOMINE"⟩),
   ("FILIUS", ⟨"FILII", "FILIUM", "FILIO", "FILIO", "FILI"⟩),
   ("ANNUS", ⟨"ANNI", "ANNUM", "ANNO", "ANNO", "ANNE"⟩),
   ("LIBER", ⟨"LIBRI", "LIBRUM", "LIBRO", "LIBRO", "LIBER"⟩),
   ("VENTER", ⟨"VENTRIS", "VENTREM", "VENTRI", "VENTRE", "VENTER"⟩),
   ("INDEX", ⟨"INDICIS", "INDICEM", "INDICI", "INDICE", "INDEX"⟩),
   ("RESULTAT", ⟨"RESULTATI", "RESULTATUM", "RESULTATO", "RESULTATO", "RESULTAT"⟩),
   ("ERROR", ⟨"ERRORIS", "ERROREM", "ERRORI", "ERRORE", "ERROR"⟩),
   ("EXCEPTIO", ⟨"EXCEPTIONIS", "EXCEPTIONEM", "EXCEPTIONI", "EXCEPTIONE", "EXCEPTIO"⟩),
   ("BELLVM", ⟨"BELLI", "BELLVM", "BELLO", "BELLO", "BELLVM"⟩),
   ("VERBVM", ⟨"VERBI", "VERBVM", "VERBO", "VERBO", "VERBVM"⟩),
   ("DONVM", ⟨"DONI", "DONVM", "DONO", "DONO", "DONVM"⟩),
   ("PRAEFIXVM", ⟨"PRAEFIXI", "PRAEFIXVM", "PRAEFIXO", "PRAEFIXO", "PRAEFIXVM"⟩),
   ("PUELLA", ⟨"PUELLAE", "PUELLAM", "PUELLAE", "PUELLA", "PUELLA"⟩),
   ("ROSA", ⟨"ROSAE", "ROSAM", "ROSAE", "ROSA", "ROSA"⟩),
   ("AQUA", ⟨"AQUAE", "AQUAM", "AQUAE", "AQUA", "AQUA"⟩),
   ("VITA", ⟨"VITAE", "VITAM", "VITAE", "VITA", "VITA"⟩),
   ("TERRA", ⟨"TERRAE", "TERRAM", "TERRAE", "TERRA", "TERRA"⟩),
   ("SUMMA", ⟨"SUMMAE", "SUMMAM", "SUMMAE", "SUMMA", "SUMMA"⟩),
   ("REX", ⟨"REGIS", "REGEM", "REGI", "REGE", "REX"⟩),
   ("CIVIS", ⟨"CIVIS", "CIVEM", "CIVI", "CIVE", "CIVIS"⟩),
   ("CORPVS", ⟨"CORPORIS", "CORPVS", "CORPORI", "CORPORE", "CORPVS"⟩),
   ("TEMPVS", ⟨"TEMPORIS", "TEMPVS", "TEMPORI", "TEMPORE", "TEMPVS"⟩),
   ("ITER", ⟨"ITINERIS", "ITER", "ITINERI", "ITINERE", "ITER"⟩),
   ("NOMEN", ⟨"NOMINIS", "NOMEN", "NOMINI", "NOMINE", "NOMEN"⟩),
   ("AETAS", ⟨"AETATIS", "AETATEM", "AETATI", "AETATE", "AETAS"⟩),
   ("SALVTATIO", ⟨"SALVTATIONIS", "SALVTATIONEM", "SALVTATIONI", "SALVTATIONE", "SALVTATIO"⟩),
   ("INPUTVM", ⟨"INPUTI", "INPUTVM", "INPUTO", "INPUTO", "INPUTVM"⟩),
   ("CONTINVA", ⟨"CONTINVAE", "CONTINVAM", "CONTINVAE", "CONTINVA", "CONTINVA"⟩),
   ("RESPONSUM", ⟨"RESPONSI", "RESPONSUM", "RESPONSO", "RESPONSO", "RESPONSUM"⟩),
   ("MANVS", ⟨"MANVS", "MANVM", "MANVI", "MANV", "MANVS"⟩),
   ("GRADVS", ⟨"GRADVS", "GRADVM", "GRADVI", "GRADV", "GRADVS"⟩),
   ("RES", ⟨"REI", "REM", "REI", "RE", "RES"⟩),
   ("DIES", ⟨"DIEI", "DIEM", "DIEI", "DIE", "DIES"⟩)]

/-- Membership of a form among the values of one declension entry. -/
def declContains (d : Decl) (form : String) : Bool :=
  d.gen == form || d.acc == form || d.dat == form || d.abl == form || d.voc == form

/-- LatinDeclension.get_nominative: a key maps to itself, else the first
entry (in table order) containing the form among its values. -/
def get_nominative (table : List (String × Decl)) (form : String) : Option String :=
  if table.any (fun p => p.1 == form) then some form
  else
    match table.find? (fun p => declContains p.2 form) with
    | some p => some p.1
    | none => none

/-- Python DECLENSIONS.get(nominative, dict()).get(case): fetch an entry. -/
def tableGet (table : List (String × Decl)) (nom : String) : Option Decl :=
  (table.find? (fun p => p.1 == nom)).map (fun p => p.2)

/-- LatinDeclension.get_accusative. -/
def get_accusative (table : List (String × Decl)) (nom : String) : Option String :=
  (tableGet table nom).map (fun d => d.acc)

/-- LatinDeclension.get_dative. -/
def get_dative (table : List (String × Decl)) (nom : String) : Option String :=
  (tableGet table nom).map (fun d => d.dat)

/-- LatinDeclension.get_ablative. -/
def get_ablative (table : List (String × Decl)) (nom : String) : Option String :=
  (tableGet table nom).map (fun d => d.abl)

/-- LatinDeclension.get_vocative. -/
def get_vocative (table : List (String × Decl)) (nom : String) : Option String :=
  (tableGet table nom).map (fun d => d.voc)

/-- LatinDeclension.get_genitive. -/
def get_genitive (table : List (String × Decl)) (nom : String) : Option String :=
  (tableGet table nom).map (fun d => d.gen)

/-! ## Tokenizer (class Tokenizer) -/

/-- The KEYWORDS list, in source order (the keyword scan takes the first
list element that is a prefix of the remaining input). -/
def KEYWORDS : List String :=
  ["SIT", "EST", "SI", "ALITER", "FINIS", "SCRIBE", "LEGO", "ADDE", "DEME", "AEQUAT",
   "DUM", "FAC", "REDDO", "VOCA", "DVCE", "MVLTIPLICA", "MAIVS", "MINOR", "IVNGE",
   "INCIPITCVM", "FINITVRCVM", "CONTINET", "INDICEDE", "IACE", "CAPE", "AVDI", "NOTA"]

/-- Tokens: the (type, value) pairs produced by Tokenizer.tokenize_line. -/
inductive Tok where
  | keyword (k : String)
  | var (name : String)
  | genitive (nom : String)
  | number (n : Int)
  | string (s : String)
deriving DecidableEq, Repr

/-- Python str.strip character class (whitespace). -/
def pySpace (c : Char) : Bool :=
  c = ' ' || c = '\t' || c = '\n' || c = '\r' || c = Char.ofNat 11 || c = Char.ofNat 12

/-- Python str.strip on a character list. -/
def pyStripL (l : List Char) : List Char :=
  ((l.dropWhile pySpace).reverse.dropWhile pySpace).reverse

/-- Python line.split(sc)[0] where sc is the semicolon: the prefix before
the first semicolon. -/
def commentFree (l : List Char) : List Char :=
  l.takeWhile (fun c => c ≠ ';')

/-- The first keyword (in KEYWORDS order) that is a prefix of the input. -/
def firstKeyword (l : List Char) : Option String :=
  KEYWORDS.find? (fun k => k.data.isPrefixOf l)

/-- The SIT branch: first table key (in insertion order) that is a prefix
of the remaining input. -/
def findTableKey (table : List (String × Decl)) (l : List Char) : Option String :=
  (table.find? (fun p => p.1.data.isPrefixOf l)).map (fun p => p.1)

/-- Greedy run of uppercase letters (the new-variable fallback after SIT). -/
def upperRun (l : List Char) : List Char :=
  l.takeWhile (fun c => c.isUpper)

/-- Current best declined-form match: the token it would produce and the
matched length. -/
structure BestMatch where
  tok : Tok
  len : Nat
deriving DecidableEq, Repr

/-- One candidate-form check of the declared-variable scan: replace the
current best only when the form is a prefix of the input and strictly
longer than the best so far. -/
def considerForm (l : List Char) (cur : Option BestMatch) (form? : Option String)
    (tk : Tok) : Option BestMatch :=
  match form? with
  | none => cur
  | some f =>
    let best := match cur with | none => 0 | some b => b.len
    if f.data.isPrefixOf l && decide (best < f.length) then some ⟨tk, f.length⟩ else cur

/-- The per-variable body of the declared-variable scan, checking the
nominative, accusative, dative, ablative, vocative and genitive forms in
source order. -/
def scanVar (table : List (String × Decl)) (l : List Char)
    (cur : Option BestMatch) (v : String) : Option BestMatch :=
  let c1 := considerForm l cur (some v) (Tok.var v)
  let c2 := considerForm l c1 (get_accusative table v) (Tok.var v)
  let c3 := considerForm l c2 (get_dative table v) (Tok.var v)
  let c4 := considerForm l c3 (get_ablative table v) (Tok.var v)
  let c5 := considerForm l c4 (get_vocative table v) (Tok.var v)
  considerForm l c5 (get_genitive table v) (Tok.genitive v)

/-- Longest declared-variable match for the remaining input (the declared
set is modelled as a list iterated in insertion order; the Python set
iteration order is unspecified, but ties can only arise between equal
strings mapping to different variables, which no claim exercises). -/
def bestVarMatch (table : List (String × Decl)) (declared : List String)
    (l : List Char) : Option BestMatch :=
  declared.foldl (scanVar table l) none

/-- The name component (second tuple slot) of a matched token. -/
def tokName : Tok → String
  | Tok.var n => n
  | Tok.genitive n => n
  | Tok.keyword k => k
  | Tok.string s => s
  | Tok.number _ => ""

/-- The keyword-adjacency heuristic: if no keyword starts right after the
chosen match, the match is a declined form longer than the nominative, the
input starts with the nominative, and a keyword starts after the
nominative, then shorten the consumed length to the nominative length
(the emitted token is left unchanged). -/
def adjustedLen (l : List Char) (bm : BestMatch) : Nat :=
  let keywordAfter := KEYWORDS.any (fun k => k.data.isPrefixOf (l.drop bm.len))
  if !keywordAfter && decide (0 < bm.len) then
    let nomName := tokName bm.tok
    let nomLen := nomName.length
    if decide (nomLen < bm.len) && nomName.data.isPrefixOf l
        && KEYWORDS.any (fun k => k.data.isPrefixOf (l.drop nomLen)) then
      nomLen
    else bm.len
  else bm.len

/-- Maximal run of Roman numeral characters. -/
def romanRun (l : List Char) : List Char :=
  l.takeWhile (fun c => (ROMAN_VALUES c).isSome)

/-- Scan for the closing quote of a string literal: content before it and
rest after it, or none when unclosed. -/
def splitAtQuote : List Char → Option (List Char × List Char)
  | [] => none
  | c :: rest =>
    if c = '"' then some ([], rest)
    else
      match splitAtQuote rest with
      | some (content, after) => some (c :: content, after)
      | none => none

/-- The scanning loop of Tokenizer.tokenize_line.  The fuel argument only
bounds the iteration count (each iteration consumes input except for the
single no-advance path after a SIT keyword, so 2*length+2 always
suffices); it never runs out on the initial fuel supplied below. -/
def tokenizeGo (table : List (String × Decl)) (declared : List String) :
    Nat → List Char → Except String (List Tok)
  | 0, _ => Except.error "tokenizer fuel exhausted"
  | _, [] => Except.ok []
  | fuel + 1, l =>
    match l.head? with
    | none => Except.ok []
    | some c =>
      if c = '"' then
        match splitAtQuote l.tail with
        | none => Except.error "ERRATUM: unclosed string literal"
        | some (content, after) =>
          (tokenizeGo table declared fuel after).map
            (fun ts => Tok.string ⟨content⟩ :: ts)
      else
        match firstKeyword l with
        | some kw =>
          let l2 := l.drop kw.length
          if kw = "SIT" then
            match findTableKey table l2 with
            | some nom =>
              (tokenizeGo table declared fuel (l2.drop nom.length)).map
                (fun ts => Tok.keyword "SIT" :: Tok.var nom :: ts)
            | none =>
              let run := upperRun l2
              if run.isEmpty then
                (tokenizeGo table declared fuel l2).map
                  (fun ts => Tok.keyword "SIT" :: ts)
              else
                (tokenizeGo table declared fuel (l2.drop run.length)).map
                  (fun ts => Tok.keyword "SIT" :: Tok.var ⟨run⟩ :: ts)
          else
            (tokenizeGo table declared fuel l2).map
              (fun ts => Tok.keyword kw :: ts)
        | none =>
          if ("NIHIL".data.isPrefixOf l) then
            (tokenizeGo table declared fuel (l.drop 5)).map
              (fun ts => Tok.number 0 :: ts)
          else
            match bestVarMatch table declared l with
            | some bm =>
              let len := adjustedLen l bm
              (tokenizeGo table declared fuel (l.drop len)).map
                (fun ts => bm.tok :: ts)
            | none =>
              let rm := romanRun l
              if rm.isEmpty then
                Except.error ("ERRATUM: " ++ sq ⟨l⟩ ++ " non intellegitur")
              else
                match romanParse ⟨rm⟩ with
                | some n =>
                  (tokenizeGo table declared fuel (l.drop rm.length)).map
                    (fun ts => Tok.number n :: ts)
                | none =>
                  Except.error ("ERRATUM: " ++ sq ⟨l⟩ ++ " non intellegitur")

/-- Tokenizer.tokenize_line: strip the comment and surrounding whitespace,
then run the scanner. -/
def tokenize_line (table : List (String × Decl)) (declared : List String)
    (line : String) : Except String (List Tok) :=
  let l := pyStripL (commentFree line.data)
  tokenizeGo table declared (2 * l.length + 2) l

/-! ## Runtime values (Python objects held by self.variables) -/

mutual

/-- Runtime values: Python int, str, or dict (record).  Records are
modelled by value; the Python original stores dict references, so
aliasing two names to one record and mutating through one is observable
there but not here (no claim exercises aliasing).  The field list is a
mutually defined inductive rather than a nested List so that all
recursive functions below are structural (hence kernel-reducible). -/
inductive Value where
  | int (n : Int)
  | str (s : String)
  | dict (fields : Fields)

/-- The insertion-ordered field list of a record. -/
inductive Fields where
  | nil
  | cons (k : String) (v : Value) (rest : Fields)

end

/-- Python dict lookup on record fields. -/
def fieldsGet : Fields → String → Option Value
  | Fields.nil, _ => none
  | Fields.cons k v rest, key => if k == key then some v else fieldsGet rest key

/-- Key-membership test on record fields. -/
def fieldsHas : Fields → String → Bool
  | Fields.nil, _ => false
  | Fields.cons k _ rest, key => k == key || fieldsHas rest key

/-- Replace the value at an existing key. -/
def fieldsReplace : Fields → String → Value → Fields
  | Fields.nil, _, _ => Fields.nil
  | Fields.cons k v rest, key, w =>
    if k == key then Fields.cons key w rest else Fields.cons k v (fieldsReplace rest key w)

/-- Append a new binding at the end. -/
def fieldsAppend : Fields → String → Value → Fields
  | Fields.nil, key, w => Fields.cons key w Fields.nil
  | Fields.cons k v rest, key, w => Fields.cons k v (fieldsAppend rest key w)

/-- Python dict store on record fields: update in place when the key is
present, else append. -/
def fieldsSet (f : Fields) (key : String) (w : Value) : Fields :=
  if fieldsHas f key then fieldsReplace f key w else fieldsAppend f key w

/-- Number of fields. -/
def fieldsLen : Fields → Nat
  | Fields.nil => 0
  | Fields.cons _ _ rest => fieldsLen rest + 1

mutual

/-- Python == on the values the interpreter stores (int/str/dict);
cross-type comparison is False, dict comparison compares key sets and
values, ignoring insertion order. -/
def pyEq : Value → Value → Bool
  | Value.int a, Value.int b => a == b
  | Value.str a, Value.str b => a == b
  | Value.dict a, Value.dict b => Nat.beq (fieldsLen a) (fieldsLen b) && pyEqFields a b
  | _, _ => false

/-- Every field of the first record equals the field of the same name in
the second. -/
def pyEqFields : Fields → Fields → Bool
  | Fields.nil, _ => true
  | Fields.cons k v rest, b =>
    (match fieldsGet b k with
     | some w => pyEq v w
     | none => false) && pyEqFields rest b

end

mutual

/-- Python repr of a value (used when print receives a dict). -/
def pyRepr : Value → String
  | Value.int n => toString n
  | Value.str s => apos ++ s ++ apos
  | Value.dict fs => "\x7b" ++ pyReprFields fs ++ "\x7d"

/-- Comma-separated field repr of a dict. -/
def pyReprFields : Fields → String
  | Fields.nil => ""
  | Fields.cons k v Fields.nil => apos ++ k ++ apos ++ ": " ++ pyRepr v
  | Fields.cons k v (Fields.cons k2 v2 rest) =>
    apos ++ k ++ apos ++ ": " ++ pyRepr v ++ ", " ++ pyReprFields (Fields.cons k2 v2 rest)

end

instance : Repr Value := ⟨fun v _ => Std.Format.text (pyRepr v)⟩

/-- Python str of a value (print on a non-int, non-roman path). -/
def pyStr : Value → String
  | Value.int n => toString n
  | Value.str s => s
  | Value.dict fs => pyRepr (Value.dict fs)

/-- Name of the Python type of a value, for host error messages. -/
def typeName : Value → String
  | Value.int _ => "int"
  | Value.str _ => "str"
  | Value.dict _ => "dict"

/-- Host TypeError text for an unsupported binary operation. -/
def unsupportedBin (op : String) (a b : Value) : String :=
  "unsupported operand type(s) for " ++ op ++ ": " ++ sq (typeName a) ++ " and " ++ sq (typeName b)

/-- Python + on interpreter values (int addition, str concatenation,
TypeError otherwise). -/
def pyAdd : Value → Value → Except String Value
  | Value.int a, Value.int b => Except.ok (Value.int (a + b))
  | Value.str a, Value.str b => Except.ok (Value.str (a ++ b))
  | Value.str _, b => Except.error ("can only concatenate str (not \"" ++ typeName b ++ "\") to str")
  | a, b => Except.error (unsupportedBin "+" a b)

/-- Python - on interpreter values. -/
def pySub : Value → Value → Except String Value
  | Value.int a, Value.int b => Except.ok (Value.int (a - b))
  | a, b => Except.error (unsupportedBin "-" a b)

/-- Python string repetition str * int (negative counts give the empty
string). -/
def strRepeat (s : String) (n : Int) : String :=
  ⟨repeatChars s.data n.toNat⟩

/-- Python * on interpreter values (int·int, and int·str / str·int
repetition; TypeError otherwise). -/
def pyMul : Value → Value → Except String Value
  | Value.int a, Value.int b => Except.ok (Value.int (a * b))
  | Value.int a, Value.str b => Except.ok (Value.str (strRepeat b a))
  | Value.str a, Value.int b => Except.ok (Value.str (strRepeat a b))
  | Value.str _, b => Except.error ("can" ++ apos ++ "t multiply sequence by non-int of type " ++ sq (typeName b))
  | a, b => Except.error (unsupportedBin "*" a b)

/-- Python // on interpreter values: floor division of ints (Int.fdiv is
Python floor semantics), TypeError otherwise. -/
def pyFloorDiv : Value → Value → Except String Value
  | Value.int a, Value.int b => Except.ok (Value.int (Int.fdiv a b))
  | a, b => Except.error (unsupportedBin "//" a b)

/-- Host TypeError text for an unsupported comparison. -/
def cmpUnsupported (sym : String) (a b : Value) : String :=
  sq sym ++ " not supported between instances of " ++ sq (typeName a) ++ " and " ++ sq (typeName b)

/-- Python string comparison: lexicographic by code point. -/
def strLt : List Char → List Char → Bool
  | [], [] => false
  | [], _ :: _ => true
  | _ :: _, [] => false
  | c :: cs, d :: ds =>
    if c.toNat < d.toNat then true
    else if d.toNat < c.toNat then false
    else strLt cs ds

/-- Python a > b: int or lexicographic string comparison, TypeError on a
mixed or dict comparison. -/
def pyGT : Value → Value → Except String Bool
  | Value.int a, Value.int b => Except.ok (decide (b < a))
  | Value.str a, Value.str b => Except.ok (strLt b.data a.data)
  | a, b => Except.error (cmpUnsupported ">" a b)

/-- Python a < b. -/
def pyLT : Value → Value → Except String Bool
  | Value.int a, Value.int b => Except.ok (decide (a < b))
  | Value.str a, Value.str b => Except.ok (strLt a.data b.data)
  | a, b => Except.error (cmpUnsupported "<" a b)

/-! ## Interpreter state (class LatinInterpreter) -/

/-- Association-list rendering of a Python dict lookup. -/
def alistGet {α : Type} (m : List (String × α)) (k : String) : Option α :=
  (m.find? (fun p => p.1 == k)).map (fun p => p.2)

/-- Association-list rendering of a Python dict store (update in place if
the key exists, else append, preserving insertion order). -/
def alistSet {α : Type} (m : List (String × α)) (k : String) (v : α) : List (String × α) :=
  if m.any (fun p => p.1 == k) then m.map (fun p => if p.1 == k then (k, v) else p)
  else m ++ [(k, v)]

/-- Python set.add on the declared-variable set (kept in insertion
order). -/
def addSet (l : List String) (v : String) : List String :=
  if l.contains v then l else l ++ [v]

/-- One entry of self.functions.  end_line is stored by the source
(search_idx - 2, which can be negative) but never read. -/
structure FuncDef where
  params : List String
  startLine : Nat
  endLine : Int

/-- One call-stack entry: the caller line and the variable snapshot. -/
structure Frame where
  returnLine : Nat
  savedVars : List (String × Value)

/-- The interpreter state: every mutable attribute of LatinInterpreter,
plus the three I/O streams (stdin as the lines yet unread, stdout as the
printed lines, stderr as raw text because AVDI/NOTA print a prefix with
no newline). -/
structure Interp where
  vars : List (String × Value)
  declared : List String
  table : List (String × Decl)
  lines : List String
  lineIndex : Nat
  loopStarts : List (Nat × Int)
  blockDepth : Int
  functions : List (String × FuncDef)
  callStack : List Frame
  exceptionHandlers : List (String × Nat)
  currentException : Option (String × String)
  exceptionThrowLine : Option Nat
  skipHandlerPop : Bool
  skipExecution : Bool
  useEnglish : Bool
  stdinLines : List String
  stdout : List String
  stderrText : String

/-- LatinInterpreter.error: the raised message, Latin (with ERRATUM
prefix) or English according to the flag. -/
def errMsg (s : Interp) (latin english : String) : String :=
  if s.useEnglish then english else "ERRATUM: " ++ latin

/-- Result of executing one line: advance, jump, fatal RuntimeError, or a
LatinExceptionThrown carrying the handler line.  Mutations made before
raising are carried in the attached state. -/
inductive ExecResult where
  | next (s : Interp)
  | jump (target : Nat) (s : Interp)
  | fatal (msg : String) (s : Interp)
  | thrown (handler : Nat) (s : Interp)

/-- Python line.strip() followed by the comment split and re-strip, as the
run loop and the block scanners do. -/
def runStrip (line : String) : String :=
  ⟨pyStripL (commentFree (pyStripL line.data))⟩

/-- The forward block scanner: counts lines starting with one of the given
openers and lines equal to FINIS, returning the final search index (one
past the matching FINIS).  Note that the prefix test makes SIT lines count
as SI openers, exactly as in the source. -/
def scanGo (lines : List String) (opens : List String) : Nat → Nat → Nat → Nat
  | 0, idx, _ => idx
  | fuel + 1, idx, depth =>
    if idx < lines.length && decide (0 < depth) then
      let sl := runStrip (lines.getD idx "")
      let depth2 :=
        if opens.any (fun o => o.data.isPrefixOf sl.data) then depth + 1
        else if sl = "FINIS" then depth - 1
        else depth
      scanGo lines opens fuel (idx + 1) depth2
    else idx

/-- The SI variant of the block scanner: an ALITER line at depth 1 is a
separate stop (first component true, index of the ALITER line). -/
def scanSIGo (lines : List String) : Nat → Nat → Nat → Bool × Nat
  | 0, idx, _ => (false, idx)
  | fuel + 1, idx, depth =>
    if idx < lines.length && decide (0 < depth) then
      let sl := runStrip (lines.getD idx "")
      if ("SI".data.isPrefixOf sl.data) || ("DUM".data.isPrefixOf sl.data) then
        scanSIGo lines fuel (idx + 1) (depth + 1)
      else if sl = "ALITER" && depth == 1 then (true, idx)
      else if sl = "FINIS" then scanSIGo lines fuel (idx + 1) (depth - 1)
      else scanSIGo lines fuel (idx + 1) depth
    else (false, idx)

/-! ## Expression evaluation helpers -/

/-- Operand of evaluate_concatenation: a string literal, or a variable
whose int value is formatted as a Roman numeral; other variable values
pass through unchanged; any other token is an error. -/
def concatValue (s : Interp) : Tok → Except String Value
  | Tok.string str => Except.ok (Value.str str)
  | Tok.var v =>
    match alistGet s.vars v with
    | none => Except.error (errMsg s (sq v ++ " non declaratur") ("Variable " ++ sq v ++ " not declared"))
    | some (Value.int n) => Except.ok (Value.str (to_roman n))
    | some val => Except.ok val
  | _ => Except.error (errMsg s "IVNGE requirit textum aut variabiles" "IVNGE requires strings or variables")

/-- LatinInterpreter.evaluate_concatenation. -/
def evaluate_concatenation (s : Interp) (tokens : List Tok) : Except String Value :=
  match tokens with
  | [t1, t2] =>
    match concatValue s t1 with
    | Except.error e => Except.error e
    | Except.ok v1 =>
      match concatValue s t2 with
      | Except.error e => Except.error e
      | Except.ok v2 => pyAdd v1 v2
  | _ => Except.error (errMsg s "IVNGE requirit duos operandos" "IVNGE requires two operands")

/-- Operand of evaluate_string_operation: string literal or declared
variable; an int variable is a type error, a dict passes through. -/
def stringOpValue (s : Interp) (op : String) : Tok → Except String Value
  | Tok.string str => Except.ok (Value.str str)
  | Tok.var v =>
    match alistGet s.vars v with
    | none => Except.error (errMsg s (sq v ++ " non declaratur") ("Variable " ++ sq v ++ " not declared"))
    | some (Value.int _) => Except.error (errMsg s (op ++ " requirit textum") (op ++ " requires strings"))
    | some val => Except.ok val
  | _ => Except.error (errMsg s (op ++ " requirit textum aut variabiles") (op ++ " requires strings or variables"))

/-- Python str.find on character lists (first index of the needle, -1 if
absent). -/
def findSubGo (needle : List Char) : List Char → Int → Int
  | [], idx => if needle.isPrefixOf [] then idx else -1
  | c :: t, idx => if needle.isPrefixOf (c :: t) then idx else findSubGo needle t (idx + 1)

/-- LatinInterpreter.evaluate_string_operation.  When an operand is a dict
the Python string method call fails at host level; that path is modelled
as the generic host error below. -/
def evaluate_string_operation (s : Interp) (op : String) (tokens : List Tok) : Except String Value :=
  match tokens with
  | [t1, t2] =>
    match stringOpValue s op t1 with
    | Except.error e => Except.error e
    | Except.ok v1 =>
      match stringOpValue s op t2 with
      | Except.error e => Except.error e
      | Except.ok v2 =>
        match v1, v2 with
        | Value.str a, Value.str b =>
          if op = "INCIPITCVM" then
            Except.ok (Value.int (if b.data.isPrefixOf a.data then 1 else 0))
          else if op = "FINITVRCVM" then
            Except.ok (Value.int (if b.data.reverse.isPrefixOf a.data.reverse then 1 else 0))
          else if op = "CONTINET" then
            Except.ok (Value.int (if 0 ≤ findSubGo b.data a.data 0 then 1 else 0))
          else if op = "INDICEDE" then
            let idx := findSubGo b.data a.data 0
            Except.ok (Value.int (if idx ≠ -1 then idx else 0))
          else Except.ok (Value.int 0)
        | _, _ => Except.error ("TypeError: " ++ op ++ " on a non-string operand")
  | _ => Except.error (errMsg s (op ++ " requirit duos operandos") (op ++ " requires two operands"))

/-- Result of evaluate_operation: a value, a RuntimeError, or a
LatinExceptionThrown (the division-by-zero path mutates the exception
state before raising, hence the attached state). -/
inductive OpResult where
  | ok (v : Value)
  | fatal (msg : String) (s : Interp)
  | thrown (handler : Nat) (s : Interp)

/-- Operand of evaluate_operation: a number literal or any declared
variable value. -/
def opValue (s : Interp) (op : String) : Tok → Except String Value
  | Tok.number n => Except.ok (Value.int n)
  | Tok.var v =>
    match alistGet s.vars v with
    | none => Except.error (errMsg s (sq v ++ " non declaratur") ("Variable " ++ sq v ++ " not declared"))
    | some val => Except.ok val
  | _ => Except.error (errMsg s (op ++ " requirit numeros aut variabiles") (op ++ " requires numbers or variables"))

/-- LatinInterpreter.evaluate_operation. -/
def evaluate_operation (s : Interp) (op : String) (tokens : List Tok) : OpResult :=
  match tokens with
  | [t1, t2] =>
    match opValue s op t1 with
    | Except.error e => OpResult.fatal e s
    | Except.ok v1 =>
      match opValue s op t2 with
      | Except.error e => OpResult.fatal e s
      | Except.ok v2 =>
        if op = "ADDE" then
          match pyAdd v1 v2 with
          | Except.ok v => OpResult.ok v
          | Except.error e => OpResult.fatal e s
        else if op = "DEME" then
          match pySub v1 v2 with
          | Except.ok v => OpResult.ok v
          | Except.error e => OpResult.fatal e s
        else if op = "MVLTIPLICA" then
          match pyMul v1 v2 with
          | Except.ok v => OpResult.ok v
          | Except.error e => OpResult.fatal e s
        else if op = "DVCE" then
          if pyEq v2 (Value.int 0) then
            if s.exceptionHandlers.isEmpty then
              OpResult.fatal (errMsg s "Divisio per nihil" "Division by zero") s
            else
              match s.exceptionHandlers.find? (fun p => p.1 == "ERROR") with
              | some p =>
                OpResult.thrown p.2
                  { s with currentException := some ("ERROR", "Divisio per nihil"),
                           exceptionThrowLine := some (s.lineIndex + 1) }
              | none => OpResult.fatal (errMsg s "Divisio per nihil" "Division by zero") s
          else
            match pyFloorDiv v1 v2 with
            | Except.ok v => OpResult.ok v
            | Except.error e => OpResult.fatal e s
        else OpResult.ok (Value.int 0)
  | _ => OpResult.fatal (errMsg s (op ++ " requirit duos operandos") (op ++ " requires two operands")) s

/-- Argument of call_function: number, string, or declared variable. -/
def argValue (s : Interp) : Tok → Except String Value
  | Tok.number n => Except.ok (Value.int n)
  | Tok.string str => Except.ok (Value.str str)
  | Tok.var v =>
    match alistGet s.vars v with
    | none => Except.error (errMsg s (sq v ++ " non declaratur") ("Variable " ++ sq v ++ " not declared"))
    | some val => Except.ok val
  | _ => Except.error (errMsg s "Argumenta invalida" "Invalid arguments")

/-- Evaluate the argument tokens left to right, stopping at the first
error. -/
def collectArgs (s : Interp) : List Tok → Except String (List Value)
  | [] => Except.ok []
  | t :: rest =>
    match argValue s t with
    | Except.error e => Except.error e
    | Except.ok v =>
      match collectArgs s rest with
      | Except.error e => Except.error e
      | Except.ok vs => Except.ok (v :: vs)

/-- zip-assignment of parameters to argument values. -/
def bindParams (vars : List (String × Value)) : List String → List Value → List (String × Value)
  | p :: ps, a :: rest => bindParams (alistSet vars p a) ps rest
  | _, _ => vars

/-- LatinInterpreter.call_function. -/
def call_function (s : Interp) (tokens : List Tok) : ExecResult :=
  match tokens with
  | [] => ExecResult.fatal (errMsg s "VOCA requirit nomen functionis" "VOCA requires function name") s
  | t0 :: argToks =>
    match t0 with
    | Tok.var funcName =>
      match alistGet s.functions funcName with
      | none =>
        ExecResult.fatal (errMsg s ("Functio " ++ sq funcName ++ " non definitur")
          ("Function " ++ sq funcName ++ " not defined")) s
      | some fd =>
        match collectArgs s argToks with
        | Except.error e => ExecResult.fatal e s
        | Except.ok args =>
          if args.length ≠ fd.params.length then
            ExecResult.fatal (errMsg s
              ("Functio " ++ sq funcName ++ " requirit " ++ toString fd.params.length ++ " argumenta")
              ("Function " ++ sq funcName ++ " requires " ++ toString fd.params.length ++ " arguments")) s
          else
            ExecResult.jump fd.startLine
              { s with vars := bindParams s.vars fd.params args,
                       callStack := ⟨s.lineIndex, s.vars⟩ :: s.callStack }
    | _ => ExecResult.fatal (errMsg s "VOCA requirit nomen functionis" "VOCA requires function name") s

/-! ## Statement handlers (LatinInterpreter.execute_line) -/

/-- The loop-closing check at the end of the FINIS handler. -/
def finisLoopCheck (s : Interp) : ExecResult :=
  match s.loopStarts with
  | (loopStart, d) :: restL =>
    if d == s.blockDepth then
      ExecResult.jump loopStart { s with loopStarts := restL, blockDepth := s.blockDepth + 1 }
    else ExecResult.next s
  | [] => ExecResult.next s

/-- The FINIS handler: decrement depth, balance or pop an exception
handler (ending the program when an exception was being handled), then
close a loop whose recorded depth matches. -/
def execFINIS (s0 : Interp) : ExecResult :=
  let s1 := { s0 with skipExecution := false, blockDepth := s0.blockDepth - 1 }
  if s1.skipHandlerPop then finisLoopCheck { s1 with skipHandlerPop := false }
  else
    match s1.exceptionHandlers with
    | (_, hl) :: restH =>
      if hl ≤ s1.lineIndex then
        let s2 := { s1 with exceptionHandlers := restH }
        if s2.exceptionThrowLine.isSome then
          ExecResult.jump s2.lines.length
            { s2 with exceptionThrowLine := none, currentException := none }
        else finisLoopCheck s2
      else finisLoopCheck s1
    | [] => finisLoopCheck s1

/-- The ending-driven automatic declension entry added at declaration. -/
def autoDecl (v : String) : Decl :=
  if v.endsWith "US" then
    let root := v.dropRight 2
    ⟨root ++ "I", root ++ "UM", root ++ "O", root ++ "O", root ++ "E"⟩
  else if v.endsWith "OR" then ⟨v ++ "IS", v ++ "EM", v ++ "I", v ++ "E", v⟩
  else if v.endsWith "IO" then ⟨v ++ "NIS", v ++ "NEM", v ++ "NI", v ++ "NE", v⟩
  else if v.endsWith "A" then
    let root := v.dropRight 1
    ⟨root ++ "AE", root ++ "AM", root ++ "AE", root ++ "A", root ++ "A"⟩
  else if v.endsWith "VM" || v.endsWith "UM" then
    let root := v.dropRight 2
    ⟨root ++ "I", v, root ++ "O", root ++ "O", v⟩
  else ⟨v ++ "I", v ++ "M", v ++ "O", v ++ "O", v ++ "E"⟩

/-- The SIT handler: register the name, set it to Integer 0, and add a
declension entry when the table lacks one. -/
def execSIT (s : Interp) (rest : List Tok) : ExecResult :=
  match rest with
  | [Tok.var v] =>
    let s1 := { s with declared := addSet s.declared v,
                       vars := alistSet s.vars v (Value.int 0) }
    if s1.table.any (fun p => p.1 == v) then ExecResult.next s1
    else ExecResult.next { s1 with table := s1.table ++ [(v, autoDecl v)] }
  | _ => ExecResult.fatal (errMsg s "Syntax incorrecta post SIT" "Invalid syntax after SIT") s

/-- How SCRIBE renders a value: Roman numeral for ints, str() otherwise. -/
def printValue : Value → String
  | Value.int n => to_roman n
  | v => pyStr v

/-- The SCRIBE handler. -/
def execSCRIBE (s : Interp) (rest : List Tok) : ExecResult :=
  match rest with
  | [Tok.var fieldName, Tok.genitive objName] =>
    match alistGet s.vars objName with
    | none => ExecResult.fatal (errMsg s (sq objName ++ " non declaratur")
        ("Object " ++ sq objName ++ " not declared")) s
    | some (Value.dict fields) =>
      match fieldsGet fields fieldName with
      | none => ExecResult.fatal (errMsg s
          ("Campus " ++ sq fieldName ++ " in " ++ sq objName ++ " non existit")
          ("Field " ++ sq fieldName ++ " in " ++ sq objName ++ " does not exist")) s
      | some v => ExecResult.next { s with stdout := s.stdout ++ [printValue v] }
    | some _ => ExecResult.fatal (errMsg s (sq objName ++ " non est structura")
        (sq objName ++ " is not a struct")) s
  | [t] =>
    match t with
    | Tok.string str => ExecResult.next { s with stdout := s.stdout ++ [str] }
    | Tok.number n => ExecResult.next { s with stdout := s.stdout ++ [to_roman n] }
    | Tok.var v =>
      match alistGet s.vars v with
      | none => ExecResult.fatal (errMsg s (sq v ++ " non declaratur")
          ("Variable " ++ sq v ++ " not declared")) s
      | some val => ExecResult.next { s with stdout := s.stdout ++ [printValue val] }
    | _ => ExecResult.next s
  | _ => ExecResult.fatal (errMsg s "Syntax incorrecta post SCRIBE" "Invalid syntax after SCRIBE") s

/-- The shared AVDI / NOTA handler: the tag is printed to stderr without a
newline before the value is inspected, exactly as in the source. -/
def execDebugPrint (s : Interp) (tag : String) (latinName : String) (rest : List Tok) : ExecResult :=
  match rest with
  | [t] =>
    let s1 := { s with stderrText := s.stderrText ++ tag }
    match t with
    | Tok.string str => ExecResult.next { s1 with stderrText := s1.stderrText ++ str ++ "\n" }
    | Tok.number n => ExecResult.next { s1 with stderrText := s1.stderrText ++ to_roman n ++ "\n" }
    | Tok.var v =>
      match alistGet s1.vars v with
      | none => ExecResult.fatal (errMsg s1 (sq v ++ " non declaratur")
          ("Variable " ++ sq v ++ " not declared")) s1
      | some val =>
        ExecResult.next { s1 with stderrText := s1.stderrText ++ printValue val ++ "\n" }
    | _ => ExecResult.next s1
  | _ => ExecResult.fatal (errMsg s ("Syntax incorrecta post " ++ latinName)
      ("Invalid syntax after " ++ latinName)) s

/-- The LEGO handler: read one stdin line (EOF is a host error), store an
int when it parses as a Roman numeral, else the string with one pair of
surrounding quotes removed. -/
def execLEGO (s : Interp) (rest : List Tok) : ExecResult :=
  match rest with
  | [Tok.var v] =>
    if (alistGet s.vars v).isNone then
      ExecResult.fatal (errMsg s (sq v ++ " non declaratur") ("Variable " ++ sq v ++ " not declared")) s
    else
      match s.stdinLines with
      | [] => ExecResult.fatal "EOF when reading a line" s
      | inp :: restIn =>
        let user : String := ⟨pyStripL inp.data⟩
        let s1 := { s with stdinLines := restIn }
        match romanParse user with
        | some n => ExecResult.next { s1 with vars := alistSet s1.vars v (Value.int n) }
        | none =>
          let user2 :=
            if user.startsWith "\"" && user.endsWith "\"" then (user.drop 1).dropRight 1 else user
          ExecResult.next { s1 with vars := alistSet s1.vars v (Value.str user2) }
  | [_] => ExecResult.fatal (errMsg s "LEGO requirit variabilem" "LEGO requires a variable") s
  | _ => ExecResult.fatal (errMsg s "Syntax incorrecta post LEGO" "Invalid syntax after LEGO") s

/-- The IACE handler: record the exception and its continuation line,
then jump to the most recent handler of that name, or fail fatally. -/
def execIACE (s : Interp) (rest : List Tok) : ExecResult :=
  match rest with
  | [] => ExecResult.fatal (errMsg s "IACE requirit nomen exceptionis" "IACE requires exception name") s
  | t0 :: more =>
    match t0 with
    | Tok.var exName =>
      let message := match more with | [Tok.string m] => m | _ => ""
      let s1 := { s with currentException := some (exName, message),
                         exceptionThrowLine := some (s.lineIndex + 1) }
      match s1.exceptionHandlers.find? (fun p => p.1 == exName) with
      | some p => ExecResult.jump p.2 s1
      | none =>
        if message ≠ "" then
          ExecResult.fatal (errMsg s1 (exName ++ ": " ++ message) (exName ++ ": " ++ message)) s1
        else ExecResult.fatal (errMsg s1 exName exName) s1
    | _ => ExecResult.fatal (errMsg s "IACE requirit nomen exceptionis in vocativo"
        "IACE requires exception name in vocative") s

/-- The skip-to-FINIS path of CAPE (no exception being handled). -/
def capeSkip (s : Interp) : ExecResult :=
  let idx := scanGo s.lines ["CAPE", "SI", "DUM"] (s.lines.length + 1) (s.lineIndex + 1) 1
  ExecResult.jump (idx - 1) { s with blockDepth := s.blockDepth + 1, skipHandlerPop := true }

/-- The CAPE handler: install the handler and enter the body when the
named exception is in flight, else skip the body leaving the handler
installed. -/
def execCAPE (s : Interp) (rest : List Tok) : ExecResult :=
  match rest with
  | [Tok.var exName] =>
    let s1 := { s with exceptionHandlers := (exName, s.lineIndex + 1) :: s.exceptionHandlers,
                       blockDepth := s.blockDepth + 1 }
    match s1.currentException with
    | some (t, _) =>
      if t == exName then ExecResult.next { s1 with currentException := none }
      else capeSkip s1
    | none => capeSkip s1
  | [_] => ExecResult.fatal (errMsg s "CAPE requirit nomen exceptionis in vocativo"
      "CAPE requires exception name in vocative") s
  | _ => ExecResult.fatal (errMsg s "CAPE requirit nomen exceptionis" "CAPE requires exception name") s

/-- Parameters of a FAC line must all be VARIABLE tokens. -/
def collectParams : List Tok → Option (List String)
  | [] => some []
  | Tok.var p :: rest => (collectParams rest).map (fun ps => p :: ps)
  | _ => none

/-- The FAC handler: record the function and skip its body. -/
def execFAC (s : Interp) (rest : List Tok) : ExecResult :=
  match rest with
  | [] => ExecResult.fatal (errMsg s "FAC requirit nomen functionis" "FAC requires function name") s
  | t0 :: paramToks =>
    match t0 with
    | Tok.var funcName =>
      match collectParams paramToks with
      | none => ExecResult.fatal (errMsg s "Parametri debent esse variabiles"
          "Parameters must be variables") s
      | some params =>
        let idx := scanGo s.lines ["FAC", "SI", "DUM"] (s.lines.length + 1) (s.lineIndex + 1) 1
        let fd : FuncDef := ⟨params, s.lineIndex + 1, (idx : Int) - 2⟩
        ExecResult.jump (idx - 1)
          { s with functions := alistSet s.functions funcName fd,
                   blockDepth := s.blockDepth + 1 }
    | _ => ExecResult.fatal (errMsg s "FAC requirit nomen functionis validum"
        "FAC requires valid function name") s

/-- The return value of REDDO: a literal or a declared variable. -/
def reddoValue (s : Interp) : Tok → Except String Value
  | Tok.number n => Except.ok (Value.int n)
  | Tok.string str => Except.ok (Value.str str)
  | Tok.var v =>
    match alistGet s.vars v with
    | none => Except.error (errMsg s (sq v ++ " non declaratur") ("Variable " ++ sq v ++ " not declared"))
    | some val => Except.ok val
  | _ => Except.error (errMsg s "REDDO requirit numerum, textum, aut variabilem"
      "REDDO requires number, string, or variable")

/-- The REDDO handler: pop the top frame, read the destination from the
current __CALLING_VAR__ slot (the source only ever stores nonempty
variable-name strings there; a falsy slot means no assignment), restore
the snapshot, assign, and jump past the caller line. -/
def execREDDO (s : Interp) (rest : List Tok) : ExecResult :=
  match rest with
  | [t] =>
    match reddoValue s t with
    | Except.error e => ExecResult.fatal e s
    | Except.ok v =>
      match s.callStack with
      | [] => ExecResult.fatal (errMsg s "REDDO extra functionem" "REDDO outside function") s
      | f :: restF =>
        let newVars :=
          match alistGet s.vars "__CALLING_VAR__" with
          | some (Value.str c) => if c = "" then f.savedVars else alistSet f.savedVars c v
          | _ => f.savedVars
        ExecResult.jump (f.returnLine + 1) { s with callStack := restF, vars := newVars }
  | _ => ExecResult.fatal (errMsg s "REDDO requirit valorem" "REDDO requires a value") s

/-- The right operand of DUM: a number or declared variable only. -/
def dumRight (s : Interp) : Tok → Except String Value
  | Tok.number n => Except.ok (Value.int n)
  | Tok.var v =>
    match alistGet s.vars v with
    | none => Except.error (errMsg s (sq v ++ " non declaratur") ("Variable " ++ sq v ++ " not declared"))
    | some val => Except.ok val
  | _ => Except.error (errMsg s "DUM requirit numerum aut variabilem" "DUM requires number or variable")

/-- The DUM comparison: AEQUAT is Python ==, MAIVS/MINOR are the raw
Python comparison operators with no type check. -/
def dumCondition (opStr : String) (l r : Value) : Except String Bool :=
  if opStr = "AEQUAT" then Except.ok (pyEq l r)
  else if opStr = "MAIVS" then pyGT l r
  else if opStr = "MINOR" then pyLT l r
  else Except.ok false

/-- The DUM handler: when the condition holds push a loop frame and enter
the body; when it fails jump to the matching FINIS line without any depth
adjustment (as the source does). -/
def execDUM (s : Interp) (rest : List Tok) : ExecResult :=
  match rest with
  | [t1, t2, t3] =>
    match t1 with
    | Tok.var leftVar =>
      let opStr := tokName t2
      if !(opStr == "AEQUAT" || opStr == "MAIVS" || opStr == "MINOR") then
        ExecResult.fatal (errMsg s "DUM requirit AEQUAT, MAIVS, aut MINOR"
          "DUM requires AEQUAT, MAIVS, or MINOR") s
      else
        match alistGet s.vars leftVar with
        | none => ExecResult.fatal (errMsg s (sq leftVar ++ " non declaratur")
            ("Variable " ++ sq leftVar ++ " not declared")) s
        | some leftVal =>
          match dumRight s t3 with
          | Except.error e => ExecResult.fatal e s
          | Except.ok rightVal =>
            match dumCondition opStr leftVal rightVal with
            | Except.error e => ExecResult.fatal e s
            | Except.ok cond =>
              if cond then
                ExecResult.next { s with loopStarts := (s.lineIndex, s.blockDepth) :: s.loopStarts,
                                         blockDepth := s.blockDepth + 1 }
              else
                let idx := scanGo s.lines ["DUM", "SI"] (s.lines.length + 1) (s.lineIndex + 1) 1
                ExecResult.jump (idx - 1) s
    | _ => ExecResult.fatal (errMsg s "DUM requirit variabilem" "DUM requires variable") s
  | _ => ExecResult.fatal (errMsg s "Syntax incorrecta in DUM" "Invalid DUM syntax") s

/-- The ALITER handler: only reached after a true SI branch; jump to the
matching FINIS. -/
def execALITER (s : Interp) : ExecResult :=
  let idx := scanGo s.lines ["SI", "DUM"] (s.lines.length + 1) (s.lineIndex + 1) 1
  ExecResult.jump (idx - 1) s

/-- The right operand of SI: string, number, or declared variable. -/
def siRight (s : Interp) : Tok → Except String Value
  | Tok.string str => Except.ok (Value.str str)
  | Tok.number n => Except.ok (Value.int n)
  | Tok.var v =>
    match alistGet s.vars v with
    | none => Except.error (errMsg s (sq v ++ " non declaratur") ("Variable " ++ sq v ++ " not declared"))
    | some val => Except.ok val
  | _ => Except.error (errMsg s "SI requirit numerum, textum, aut variabilem"
      "SI requires number, string, or variable")

/-- Integer tag test (Python isinstance(value, int)). -/
def isInt : Value → Bool
  | Value.int _ => true
  | _ => false

/-- The SI comparison: AEQUAT is Python ==; MAIVS/MINOR demand two ints
and raise the type-mismatch error otherwise. -/
def siCondition (s : Interp) (opStr : String) (l r : Value) : Except String Bool :=
  if opStr = "AEQUAT" then Except.ok (pyEq l r)
  else if opStr = "MAIVS" then
    if isInt l && isInt r then pyGT l r
    else Except.error (errMsg s "MAIVS requirit numeros" "MAIVS requires numbers")
  else if opStr = "MINOR" then
    if isInt l && isInt r then pyLT l r
    else Except.error (errMsg s "MINOR requirit numeros" "MINOR requires numbers")
  else Except.ok false

/-- The SI handler. -/
def execSI (s : Interp) (rest : List Tok) : ExecResult :=
  match rest with
  | [t1, t2, t3] =>
    match t1 with
    | Tok.var leftVar =>
      let opStr := tokName t2
      if !(opStr == "AEQUAT" || opStr == "MAIVS" || opStr == "MINOR") then
        ExecResult.fatal (errMsg s "SI requirit AEQUAT, MAIVS, aut MINOR"
          "SI requires AEQUAT, MAIVS, or MINOR") s
      else
        match alistGet s.vars leftVar with
        | none => ExecResult.fatal (errMsg s (sq leftVar ++ " non declaratur")
            ("Variable " ++ sq leftVar ++ " not declared")) s
        | some leftVal =>
          match siRight s t3 with
          | Except.error e => ExecResult.fatal e s
          | Except.ok rightVal =>
            match siCondition s opStr leftVal rightVal with
            | Except.error e => ExecResult.fatal e s
            | Except.ok cond =>
              if cond then ExecResult.next { s with blockDepth := s.blockDepth + 1 }
              else
                match scanSIGo s.lines (s.lines.length + 1) (s.lineIndex + 1) 1 with
                | (true, i) => ExecResult.jump (i + 1) { s with blockDepth := s.blockDepth + 1 }
                | (false, i) => ExecResult.jump (i - 1) { s with blockDepth := s.blockDepth + 1 }
    | _ => ExecResult.fatal (errMsg s "SI requirit variabilem" "SI requires variable") s
  | _ => ExecResult.fatal (errMsg s "Syntax incorrecta in SI" "Invalid SI syntax") s

/-- Store a value into a record field (the object is known to hold a
dict in the current environment). -/
def setField (s : Interp) (objName fieldName : String) (v : Value) : ExecResult :=
  let fields := match alistGet s.vars objName with
    | some (Value.dict fs) => fs
    | _ => Fields.nil
  ExecResult.next { s with vars := alistSet s.vars objName (Value.dict (fieldsSet fields fieldName v)) }

/-- The field-assignment statement (Var Gen EST rhs): auto-create the
record, then store a literal, a variable value, or another record field.
A right-hand side matching none of those shapes falls through to the
final Unknown-syntax error with the record creation already performed,
exactly as the source control flow does. -/
def execFieldAssign (s : Interp) (fieldName objName : String) (rhs : List Tok) : ExecResult :=
  match alistGet s.vars objName with
  | none => ExecResult.fatal (errMsg s (sq objName ++ " non declaratur")
      ("Object " ++ sq objName ++ " not declared")) s
  | some objVal =>
    let s1 := match objVal with
      | Value.dict _ => s
      | _ => { s with vars := alistSet s.vars objName (Value.dict Fields.nil) }
    match rhs with
    | [Tok.string str] => setField s1 objName fieldName (Value.str str)
    | [Tok.number n] => setField s1 objName fieldName (Value.int n)
    | [Tok.var src] =>
      match alistGet s1.vars src with
      | none => ExecResult.fatal (errMsg s1 (sq src ++ " non declaratur")
          ("Variable " ++ sq src ++ " not declared")) s1
      | some v => setField s1 objName fieldName v
    | [Tok.var srcField, Tok.genitive srcObj] =>
      match alistGet s1.vars srcObj with
      | none => ExecResult.fatal (errMsg s1 (sq srcObj ++ " non declaratur")
          ("Object " ++ sq srcObj ++ " not declared")) s1
      | some (Value.dict srcFields) =>
        match fieldsGet srcFields srcField with
        | none => ExecResult.fatal (errMsg s1
            ("Campus " ++ sq srcField ++ " in " ++ sq srcObj ++ " non existit")
            ("Field " ++ sq srcField ++ " in " ++ sq srcObj ++ " does not exist")) s1
        | some v => setField s1 objName fieldName v
      | some _ => ExecResult.fatal (errMsg s1 (sq srcObj ++ " non est structura")
          (sq srcObj ++ " is not a struct")) s1
    | _ => ExecResult.fatal (errMsg s1 "Syntax non cognita" "Unknown syntax") s1

/-- The assignment statement (Var EST rhs). -/
def execAssign (s : Interp) (varName : String) (rhs : List Tok) : ExecResult :=
  if (alistGet s.vars varName).isNone then
    ExecResult.fatal (errMsg s (sq varName ++ " non declaratur")
      ("Variable " ++ sq varName ++ " not declared")) s
  else
    match rhs with
    | [Tok.string str] => ExecResult.next { s with vars := alistSet s.vars varName (Value.str str) }
    | [Tok.number n] => ExecResult.next { s with vars := alistSet s.vars varName (Value.int n) }
    | [Tok.var src] =>
      match alistGet s.vars src with
      | none => ExecResult.fatal (errMsg s (sq src ++ " non declaratur")
          ("Variable " ++ sq src ++ " not declared")) s
      | some v => ExecResult.next { s with vars := alistSet s.vars varName v }
    | Tok.keyword kw :: op1 :: ops =>
      if kw = "IVNGE" then
        match evaluate_concatenation s (op1 :: ops) with
        | Except.error e => ExecResult.fatal e s
        | Except.ok v => ExecResult.next { s with vars := alistSet s.vars varName v }
      else if kw = "INCIPITCVM" || kw = "FINITVRCVM" || kw = "CONTINET" || kw = "INDICEDE" then
        match evaluate_string_operation s kw (op1 :: ops) with
        | Except.error e => ExecResult.fatal e s
        | Except.ok v => ExecResult.next { s with vars := alistSet s.vars varName v }
      else if kw = "ADDE" || kw = "DEME" || kw = "MVLTIPLICA" || kw = "DVCE" then
        match evaluate_operation s kw (op1 :: ops) with
        | OpResult.fatal e s2 => ExecResult.fatal e s2
        | OpResult.thrown h s2 => ExecResult.thrown h s2
        | OpResult.ok v => ExecResult.next { s with vars := alistSet s.vars varName v }
      else if kw = "VOCA" then
        let s1 := { s with vars := alistSet s.vars "__CALLING_VAR__" (Value.str varName) }
        call_function s1 (op1 :: ops)
      else ExecResult.fatal (errMsg s "Syntax incorrecta in assignatione" "Invalid assignment syntax") s
    | _ => ExecResult.fatal (errMsg s "Syntax incorrecta in assignatione" "Invalid assignment syntax") s

/-- The statement dispatcher of LatinInterpreter.execute_line, applied to
the token list of one line. -/
def executeTokens (tokens : List Tok) (s : Interp) : ExecResult :=
  match tokens with
  | [] => ExecResult.next s
  | t0 :: rest =>
    if t0 = Tok.keyword "FINIS" then execFINIS s
    else if s.skipExecution then ExecResult.next s
    else if t0 = Tok.keyword "SIT" then execSIT s rest
    else if t0 = Tok.keyword "SCRIBE" then execSCRIBE s rest
    else if t0 = Tok.keyword "AVDI" then execDebugPrint s "[DEBUG] " "AVDI" rest
    else if t0 = Tok.keyword "NOTA" then execDebugPrint s "[LOG] " "NOTA" rest
    else if t0 = Tok.keyword "LEGO" then execLEGO s rest
    else if t0 = Tok.keyword "IACE" then execIACE s rest
    else if t0 = Tok.keyword "CAPE" then execCAPE s rest
    else if t0 = Tok.keyword "FAC" then execFAC s rest
    else if t0 = Tok.keyword "REDDO" then execREDDO s rest
    else if t0 = Tok.keyword "DUM" then execDUM s rest
    else if t0 = Tok.keyword "ALITER" then execALITER s
    else if t0 = Tok.keyword "SI" then execSI s rest
    else
      match tokens with
      | Tok.var f :: Tok.genitive o :: Tok.keyword "EST" :: rhs => execFieldAssign s f o rhs
      | Tok.var v :: Tok.keyword "EST" :: x :: rhs2 => execAssign s v (x :: rhs2)
      | _ => ExecResult.fatal (errMsg s "Syntax non cognita" "Unknown syntax") s

/-- LatinInterpreter.execute_line: tokenize, then dispatch (a tokenizer
error is a RuntimeError). -/
def execute_line (line : String) (s : Interp) : ExecResult :=
  match tokenize_line s.table s.declared line with
  | Except.error e => ExecResult.fatal e s
  | Except.ok toks => executeTokens toks s

/-- Result of a whole run: normal termination (exit status 0), a fatal
error printed as Error on line N (exit status 1), or insufficient fuel. -/
inductive RunOutcome where
  | done (s : Interp)
  | fatal (msg : String) (s : Interp)
  | outOfFuel (s : Interp)

/-- The main loop of LatinInterpreter.run, with explicit fuel. -/
def runLoop : Nat → Interp → RunOutcome
  | 0, s => RunOutcome.outOfFuel s
  | fuel + 1, s =>
    if s.lineIndex < s.lines.length then
      let line := runStrip (s.lines.getD s.lineIndex "")
      if line = "" then runLoop fuel { s with lineIndex := s.lineIndex + 1 }
      else
        match execute_line line s with
        | ExecResult.next s2 => runLoop fuel { s2 with lineIndex := s2.lineIndex + 1 }
        | ExecResult.jump t s2 => runLoop fuel { s2 with lineIndex := t }
        | ExecResult.thrown h s2 => runLoop fuel { s2 with lineIndex := h }
        | ExecResult.fatal e s2 =>
          RunOutcome.fatal ("Error on line " ++ toString (s.lineIndex + 1) ++ ": " ++ e) s2
    else RunOutcome.done s

/-- Fresh interpreter state over a line array and an input stream. -/
def initState (lines stdin : List String) : Interp :=
  { vars := [], declared := [], table := DECLENSIONS, lines := lines, lineIndex := 0,
    loopStarts := [], blockDepth := 0, functions := [], callStack := [],
    exceptionHandlers := [], currentException := none, exceptionThrowLine := none,
    skipHandlerPop := false, skipExecution := false, useEnglish := false,
    stdinLines := stdin, stdout := [], stderrText := "" }

/-- Run a program given as its line array (LatinInterpreter.run after the
newline split), with empty stdin. -/
def runProgram (fuel : Nat) (lines : List String) : RunOutcome :=
  runLoop fuel (initState lines [])

/-- The stdout lines of a completed run (none when the run was fatal or
out of fuel). -/
def stdoutOf : RunOutcome → Option (List String)
  | RunOutcome.done s => some s.stdout
  | _ => none

/-- The fatal diagnostic of a failed run (the process exits with status
1 after printing it). -/
def fatalOf : RunOutcome → Option String
  | RunOutcome.fatal msg _ => some msg
  | _ => none

/-- A final variable value of a completed run. -/
def finalVar (r : RunOutcome) (v : String) : Option Value :=
  match r with
  | RunOutcome.done s => alistGet s.vars v
  | _ => none

/-- The final (depth, loop stack size, call stack size) of a completed
run. -/
def finalStacks : RunOutcome → Option (Int × Nat × Nat)
  | RunOutcome.done s => some (s.blockDepth, s.loopStarts.length, s.callStack.length)
  | _ => none

/-- The token list of a successful tokenization. -/
def tokensOf : Except String (List Tok) → Option (List Tok)
  | Except.ok l => some l
  | Except.error _ => none

/-- The five oblique cases of a declension entry. -/
inductive NounCase where
  | gen
  | acc
  | dat
  | abl
  | voc
deriving DecidableEq, Repr

/-- Case-indexed oblique lookup over the table. -/
def get_oblique (table : List (String × Decl)) (nom : String) : NounCase → Option String
  | NounCase.gen => get_genitive table nom
  | NounCase.acc => get_accusative table nom
  | NounCase.dat => get_dative table nom
  | NounCase.abl => get_ablative table nom
  | NounCase.voc => get_vocative table nom

/-! ## Claim C1 -/

/-- The three-line program of the claim, exactly as the spec writes it
(tokens separated by spaces). -/
def progC1spec : List String :=
  ["SIT NUMERUS", "NUMERUS EST ADDE II III", "SCRIBE NUMERUM"]

/-- The separator-free program computing and printing V. -/
def progC1nospace : List String :=
  ["SITNUMERUS", "SITSUMMA", "NUMERUSESTII", "SUMMAESTIII",
   "SUMMAESTADDENUMERUSSUMMA", "SCRIBESUMMA"]

/-- C1 counterexample: the spec program with space-separated tokens does
not print V; its very first line fails to tokenize, the run is fatal on
line 1 (exit status 1) and nothing reaches stdout. -/
theorem c1_counterexample :
    fatalOf (runProgram 20 progC1spec) =
      some ("Error on line 1: ERRATUM: " ++ sq " NUMERUS" ++ " non intellegitur") ∧
    stdoutOf (runProgram 20 progC1spec) = none := by
  constructor <;> rfl

/-- C1 (amended): tokenization does not skip whitespace: a space between
tokens makes tokenize_line fail with an ERRATUM error, so the line
SIT NUMERUS is a tokenization error rather than Keyword(SIT)
Variable(NUMERUS); the separator-free spelling SITNUMERUS tokenizes as
Keyword(SIT) Variable(NUMERUS), and the separator-free three-variable
program runs without error and prints V. -/
theorem c1_whitespace_not_skipped :
    tokenize_line DECLENSIONS [] "SIT NUMERUS" =
      Except.error ("ERRATUM: " ++ sq " NUMERUS" ++ " non intellegitur") ∧
    tokenize_line DECLENSIONS [] "SITNUMERUS" =
      Except.ok [Tok.keyword "SIT", Tok.var "NUMERUS"] ∧
    stdoutOf (runProgram 50 progC1nospace) = some ["V"] := by
  refine ⟨rfl, rfl, rfl⟩

/-! ## Claim C2 -/

/-- C2 counterexample: with RESULTAT declared, the input RESULTATIVNGE
(declared name RESULTAT directly followed by keyword IVNGE) tokenizes as
Genitive(RESULTAT) Keyword(IVNGE): the adjacency heuristic shortens the
matched length to the nominative but keeps the GENITIVE tag chosen for
the longer genitive form RESULTATI, so the first token is not
Variable(RESULTAT) as the claim requires. -/
theorem c2_counterexample :
    tokensOf (tokenize_line DECLENSIONS ["RESULTAT"] ("RESULTAT" ++ "IVNGE")) =
      some [Tok.genitive "RESULTAT", Tok.keyword "IVNGE"] ∧
    Tok.genitive "RESULTAT" ≠ Tok.var "RESULTAT" := by
  exact ⟨rfl, by decide⟩

/-- Successful tokenization to exactly the given token list. -/
def okTokens (r : Except String (List Tok)) (l : List Tok) : Bool :=
  match r with
  | Except.ok l2 => l2 == l
  | Except.error _ => false

/-- One adjacency check: N directly followed by K tokenizes as a
variable or genitive token for N, then Keyword(K). -/
def c2pair (nom kw : String) : Bool :=
  okTokens (tokenize_line DECLENSIONS [nom] (nom ++ kw)) [Tok.var nom, Tok.keyword kw] ||
  okTokens (tokenize_line DECLENSIONS [nom] (nom ++ kw)) [Tok.genitive nom, Tok.keyword kw]

/-- The adjacency check over a batch of nominatives, every keyword. -/
def c2check (noms : List String) : Bool :=
  noms.all (fun nom => KEYWORDS.all (fun kw => c2pair nom kw))

/-- Adjacency batch 1 of the declension table. -/
theorem c2chunk1 : c2check ["NUMERUS", "PRIMUS", "SECUNDUS", "TERTIUS", "QUARTUS"] = true := by decide

/-- Adjacency batch 2 of the declension table. -/
theorem c2chunk2 : c2check ["QUINTUS", "MAXIMVS", "AMICUS", "SERVUS", "DOMINUS"] = true := by decide

/-- Adjacency batch 3 of the declension table. -/
theorem c2chunk3 : c2check ["FILIUS", "ANNUS", "LIBER", "VENTER", "INDEX"] = true := by decide

/-- Adjacency batch 4 of the declension table. -/
theorem c2chunk4 : c2check ["RESULTAT", "ERROR", "EXCEPTIO", "BELLVM", "VERBVM"] = true := by decide

/-- Adjacency batch 5 of the declension table. -/
theorem c2chunk5 : c2check ["DONVM", "PRAEFIXVM", "PUELLA", "ROSA", "AQUA"] = true := by decide

/-- Adjacency batch 6 of the declension table. -/
theorem c2chunk6 : c2check ["VITA", "TERRA", "SUMMA", "REX", "CIVIS"] = true := by decide

/-- Adjacency batch 7 of the declension table. -/
theorem c2chunk7 : c2check ["CORPVS", "TEMPVS", "ITER", "NOMEN", "AETAS"] = true := by decide

/-- Adjacency batch 8 of the declension table. -/
theorem c2chunk8 : c2check ["SALVTATIO", "INPUTVM", "CONTINVA", "RESPONSUM", "MANVS"] = true := by decide

/-- Adjacency batch 9 of the declension table. -/
theorem c2chunk9 : c2check ["GRADVS", "RES", "DIES"] = true := by decide

/-- Unpacking of a passed adjacency batch. -/
theorem c2check_spec (noms : List String) (h : c2check noms = true) :
    ∀ nom ∈ noms, ∀ kw ∈ KEYWORDS,
      okTokens (tokenize_line DECLENSIONS [nom] (nom ++ kw)) [Tok.var nom, Tok.keyword kw] = true ∨
      okTokens (tokenize_line DECLENSIONS [nom] (nom ++ kw)) [Tok.genitive nom, Tok.keyword kw] = true := by
  intro nom hnom kw hkw
  unfold c2check at h
  have h1 := (List.all_eq_true.mp h) nom hnom
  have h2 := (List.all_eq_true.mp h1) kw hkw
  unfold c2pair at h2
  simpa using h2

/-- C2 (amended): for every nominative N of the built-in declension
table, declared on its own, and every keyword K, the input N directly
followed by K tokenizes as exactly two tokens: the second is Keyword(K)
and the first maps to N — it is Variable(N), or Genitive(N) when the
genitive form of N was the strictly longest matching declined form (the
adjacency heuristic shortens the consumed length to the nominative but
keeps the genitive tag). -/
theorem c2_adjacency :
    ∀ nom ∈ DECLENSIONS.map Prod.fst, ∀ kw ∈ KEYWORDS,
      okTokens (tokenize_line DECLENSIONS [nom] (nom ++ kw)) [Tok.var nom, Tok.keyword kw] = true ∨
      okTokens (tokenize_line DECLENSIONS [nom] (nom ++ kw)) [Tok.genitive nom, Tok.keyword kw] = true := by
  intro nom hnom kw hkw
  have hsplit : DECLENSIONS.map Prod.fst =
      ["NUMERUS", "PRIMUS", "SECUNDUS", "TERTIUS", "QUARTUS"] ++
      ["QUINTUS", "MAXIMVS", "AMICUS", "SERVUS", "DOMINUS"] ++
      ["FILIUS", "ANNUS", "LIBER", "VENTER", "INDEX"] ++
      ["RESULTAT", "ERROR", "EXCEPTIO", "BELLVM", "VERBVM"] ++
      ["DONVM", "PRAEFIXVM", "PUELLA", "ROSA", "AQUA"] ++
      ["VITA", "TERRA", "SUMMA", "REX", "CIVIS"] ++
      ["CORPVS", "TEMPVS", "ITER", "NOMEN", "AETAS"] ++
      ["SALVTATIO", "INPUTVM", "CONTINVA", "RESPONSUM", "MANVS"] ++
      ["GRADVS", "RES", "DIES"] := by rfl
  rw [hsplit] at hnom
  simp only [List.mem_append] at hnom
  rcases hnom with ((((((((h | h) | h) | h) | h) | h) | h) | h) | h)
  · exact c2check_spec _ c2chunk1 nom h kw hkw
  · exact c2check_spec _ c2chunk2 nom h kw hkw
  · exact c2check_spec _ c2chunk3 nom h kw hkw
  · exact c2check_spec _ c2chunk4 nom h kw hkw
  · exact c2check_spec _ c2chunk5 nom h kw hkw
  · exact c2check_spec _ c2chunk6 nom h kw hkw
  · exact c2check_spec _ c2chunk7 nom h kw hkw
  · exact c2check_spec _ c2chunk8 nom h kw hkw
  · exact c2check_spec _ c2chunk9 nom h kw hkw

/-- C2 witness: NUMERUS followed by EST tokenizes as Variable(NUMERUS)
Keyword(EST). -/
theorem c2_adjacency_witness :
    okTokens (tokenize_line DECLENSIONS ["NUMERUS"] ("NUMERUS" ++ "EST"))
        [Tok.var "NUMERUS", Tok.keyword "EST"] = true ∨
    okTokens (tokenize_line DECLENSIONS ["NUMERUS"] ("NUMERUS" ++ "EST"))
        [Tok.genitive "NUMERUS", Tok.keyword "EST"] = true :=
  c2_adjacency "NUMERUS" (by decide) "EST" (by decide)

/-! ## Claim C6 -/

/-- Repetition of a one-character numeral is List.replicate. -/
theorem repeatChars_single (c : Char) (q : Nat) : repeatChars [c] q = List.replicate q c := by
  induction q with
  | zero => rfl
  | succ n ih => simp [repeatChars, List.replicate_succ, ih]

/-- The parse loop splits over list concatenation, threading the running
total and previous value. -/
theorem parseGo_append (xs ys : List Char) (p : Nat) (t : Int) :
    parseGo (xs ++ ys) p t =
      match parseGo xs p t with
      | none => none
      | some (t2, p2) => parseGo ys p2 t2 := by
  induction xs generalizing p t with
  | nil => simp [parseGo]
  | cons c rest ih =>
    simp only [List.cons_append, parseGo]
    cases h : ROMAN_VALUES c with
    | none => simp
    | some v => simp [ih]

/-- Concatenation step when the first part parses to a known pair. -/
theorem parseGo_append_some (xs ys : List Char) (p : Nat) (t : Int) (t2 : Int) (p2 : Nat)
    (h : parseGo xs p t = some (t2, p2)) :
    parseGo (xs ++ ys) p t = parseGo ys p2 t2 := by
  rw [parseGo_append, h]

/-- Parsing a block of M characters adds 1000 per character when the
incoming previous value is at most 1000. -/
theorem parseGo_Ms (q : Nat) : ∀ (p : Nat) (t : Int), p ≤ 1000 →
    parseGo (List.replicate q 'M') p t =
      some (t + 1000 * (q : Int), if q = 0 then p else 1000) := by
  induction q with
  | zero => intro p t _; simp [parseGo]
  | succ n ih =>
    intro p t hp
    rw [List.replicate_succ]
    simp only [parseGo]
    have hv : ROMAN_VALUES 'M' = some 1000 := rfl
    rw [hv]
    simp only [Nat.cast_ofNat]
    rw [if_neg (by omega)]
    rw [ih 1000 (t + 1000) (by norm_num)]
    simp only [ite_self, Nat.succ_ne_zero, if_neg]
    congr 2
    push_cast
    ring

/-- A bounded check of the sub-1000 part of the codec: for the table
after the M entry, parsing the reversed emitted numeral from previous
value 0 yields exactly the input with a final previous value at most
1000, and emptiness exactly for 0. -/
def subCheck (r : Nat) : Bool :=
  match parseGo (toRomanGo r ROMAN_TABLE.tail).reverse 0 0 with
  | some (t, p) =>
    t == (r : Int) && decide (p ≤ 1000) &&
      ((r == 0) == (toRomanGo r ROMAN_TABLE.tail).isEmpty)
  | none => false

set_option maxRecDepth 8000 in

/-- The sub-1000 check on remainders 000-099. -/
theorem subCheckChunk0 : ∀ i < 100, subCheck (100 * 0 + i) = true := by decide

set_option maxRecDepth 8000 in

/-- The sub-1000 check on remainders 100-199. -/
theorem subCheckChunk1 : ∀ i < 100, subCheck (100 * 1 + i) = true := by decide

set_option maxRecDepth 8000 in

/-- The sub-1000 check on remainders 200-299. -/
theorem subCheckChunk2 : ∀ i < 100, subCheck (100 * 2 + i) = true := by decide

set_option maxRecDepth 8000 in

/-- The sub-1000 check on remainders 300-399. -/
theorem subCheckChunk3 : ∀ i < 100, subCheck (100 * 3 + i) = true := by decide

set_option maxRecDepth 8000 in

/-- The sub-1000 check on remainders 400-499. -/
theorem subCheckChunk4 : ∀ i < 100, subCheck (100 * 4 + i) = true := by decide

set_option maxRecDepth 8000 in

/-- The sub-1000 check on remainders 500-599. -/
theorem subCheckChunk5 : ∀ i < 100, subCheck (100 * 5 + i) = true := by decide

set_option maxRecDepth 8000 in

/-- The sub-1000 check on remainders 600-699. -/
theorem subCheckChunk6 : ∀ i < 100, subCheck (100 * 6 + i) = true := by decide

set_option maxRecDepth 8000 in

/-- The sub-1000 check on remainders 700-799. -/
theorem subCheckChunk7 : ∀ i < 100, subCheck (100 * 7 + i) = true := by decide

set_option maxRecDepth 8000 in

/-- The sub-1000 check on remainders 800-899. -/
theorem subCheckChunk8 : ∀ i < 100, subCheck (100 * 8 + i) = true := by decide

set_option maxRecDepth 8000 in

/-- The sub-1000 check on remainders 900-999. -/
theorem subCheckChunk9 : ∀ i < 100, subCheck (100 * 9 + i) = true := by decide

/-- The sub-1000 check holds for every remainder below 1000. -/
theorem subCheck_ok : ∀ r < 1000, subCheck r = true := by
  intro r h
  obtain ⟨k, i, hk, hi, rfl⟩ : ∃ k i, k < 10 ∧ i < 100 ∧ r = 100 * k + i :=
    ⟨r / 100, r % 100, by omega, by omega, by omega⟩
  interval_cases k
  · exact subCheckChunk0 i hi
  · exact subCheckChunk1 i hi
  · exact subCheckChunk2 i hi
  · exact subCheckChunk3 i hi
  · exact subCheckChunk4 i hi
  · exact subCheckChunk5 i hi
  · exact subCheckChunk6 i hi
  · exact subCheckChunk7 i hi
  · exact subCheckChunk8 i hi
  · exact subCheckChunk9 i hi

/-- Propositional unpacking of subCheck. -/
theorem subCheck_spec (r : Nat) (h : r < 1000) :
    ∃ p, parseGo (toRomanGo r ROMAN_TABLE.tail).reverse 0 0 = some ((r : Int), p) ∧
      p ≤ 1000 ∧ (r = 0 ↔ toRomanGo r ROMAN_TABLE.tail = []) := by
  have hc := subCheck_ok r h
  unfold subCheck at hc
  cases hpar : parseGo (toRomanGo r ROMAN_TABLE.tail).reverse 0 0 with
  | none => rw [hpar] at hc; exact absurd hc (by simp)
  | some tp =>
    obtain ⟨t, p⟩ := tp
    rw [hpar] at hc
    simp only [Bool.and_eq_true, beq_iff_eq, decide_eq_true_eq] at hc
    obtain ⟨⟨ht, hple⟩, hiff⟩ := hc
    refine ⟨p, by rw [ht], hple, ?_⟩
    constructor
    · intro hr0
      subst hr0
      simp only [beq_self_eq_true] at hiff
      exact List.isEmpty_iff.mp (by rw [← hiff])
    · intro hnil
      by_contra hr0
      have h1 : (r == 0) = false := by simp [hr0]
      have h2 : (toRomanGo r ROMAN_TABLE.tail).isEmpty = true := by rw [hnil]; rfl
      rw [h1, h2] at hiff
      exact Bool.false_ne_true hiff

/-- C6: the Roman codec round-trips: parsing the formatted numeral of any
positive integer returns that integer, and formatting any non-positive
integer returns NIHIL. -/
theorem c6_roman_roundtrip :
    (∀ n : Int, 0 < n → romanParse (to_roman n) = some n) ∧
    (∀ n : Int, n ≤ 0 → to_roman n = "NIHIL") := by
  constructor
  · intro n hn
    have hn0 : ¬ n ≤ 0 := by omega
    unfold to_roman
    rw [if_neg hn0]
    have hm1 : 1 ≤ n.toNat := by omega
    have hsplit : toRomanGo n.toNat ROMAN_TABLE =
        List.replicate (n.toNat / 1000) 'M' ++ toRomanGo (n.toNat % 1000) ROMAN_TABLE.tail := by
      have hmod : n.toNat - 1000 * (n.toNat / 1000) = n.toNat % 1000 := by omega
      show toRomanGo n.toNat ((1000, ['M']) :: ROMAN_TABLE.tail) = _
      rw [toRomanGo, hmod, repeatChars_single]
    have hr : n.toNat % 1000 < 1000 := Nat.mod_lt _ (by norm_num)
    obtain ⟨p, hpar, hple, hiff⟩ := subCheck_spec (n.toNat % 1000) hr
    have hL : toRomanGo n.toNat ROMAN_TABLE ≠ [] := by
      rw [hsplit]
      rcases Nat.eq_zero_or_pos (n.toNat / 1000) with hq | hq
      · have hr0 : n.toNat % 1000 ≠ 0 := by omega
        rw [hq, List.replicate_zero, List.nil_append]
        intro hcontra
        exact hr0 (hiff.mpr hcontra)
      · intro hcontra
        rcases List.append_eq_nil.mp hcontra with ⟨h1, _⟩
        have hlen := congrArg List.length h1
        rw [List.length_replicate] at hlen
        simp at hlen
        omega
    unfold romanParse
    rw [if_neg (by simpa using hL)]
    rw [show (String.mk (toRomanGo n.toNat ROMAN_TABLE)).data = toRomanGo n.toNat ROMAN_TABLE from rfl]
    rw [hsplit, List.reverse_append, List.reverse_replicate,
      parseGo_append_some _ _ _ _ _ _ hpar, parseGo_Ms _ _ _ hple]
    have hsum : ((n.toNat % 1000 : Nat) : Int) + 1000 * ((n.toNat / 1000 : Nat) : Int) = n := by
      have hdm := Nat.div_add_mod n.toNat 1000
      omega
    rw [hsum]
    simp [hn]
  · intro n hn
    unfold to_roman
    rw [if_pos hn]

/-- C6 witness: the round trip at 1994 and the NIHIL case at -3. -/
theorem c6_roman_roundtrip_witness :
    romanParse (to_roman 1994) = some 1994 ∧ to_roman (-3) = "NIHIL" :=
  ⟨c6_roman_roundtrip.1 1994 (by decide), c6_roman_roundtrip.2 (-3) (by decide)⟩

/-! ## Claim C5 -/

/-- A block-balanced program whose DUM condition is false at its first
test: the false branch jumps to the FINIS line without any balancing
depth increment, so the FINIS decrement drives the depth to -1. -/
def progC5dum : List String := ["SITAQUA", "AQUAESTI", "DUMAQUAAEQUATNIHIL", "FINIS"]

/-- A program that enters a true SI block and ends without closing it. -/
def progC5si : List String := ["SITAQUA", "SIAQUAAEQUATNIHIL"]

/-- C5 counterexample: two runs complete without any fatal error yet end
with a nonzero block-depth counter — the block-balanced DUM program ends
at depth -1 (its false condition jumps onto the FINIS line without the
balancing increment), and the unterminated SI program ends at depth 1. -/
theorem c5_counterexample :
    finalStacks (runProgram 50 progC5dum) = some (-1, 0, 0) ∧
    finalStacks (runProgram 50 progC5si) = some (1, 0, 0) := by
  refine ⟨rfl, rfl⟩

/-- The statement keywords whose handlers move the block depth, the loop
stack, or the call stack. -/
def badHead (k : String) : Bool :=
  k == "FINIS" || k == "SI" || k == "DUM" || k == "ALITER" ||
    k == "FAC" || k == "CAPE" || k == "REDDO" || k == "IACE"

/-- A token that would dispatch to a depth- or stack-moving handler. -/
def controlHead : Tok → Bool
  | Tok.keyword k => badHead k
  | _ => false

/-- A tokenized statement that moves no control state: its head is not a
control keyword and it contains no VOCA keyword (so no call is made). -/
def nonControl (toks : List Tok) : Bool :=
  (match toks with
   | [] => true
   | t :: _ => !(controlHead t)) && !(toks.contains (Tok.keyword "VOCA"))

/-- The state components the C5 invariant tracks, plus the line array
(needed to carry the hypothesis through the run). -/
def sameStacks (s2 s : Interp) : Prop :=
  s2.blockDepth = s.blockDepth ∧ s2.loopStarts = s.loopStarts ∧
    s2.callStack = s.callStack ∧ s2.lines = s.lines

/-- The state carried by a statement result. -/
def stateOf : ExecResult → Interp
  | ExecResult.next s2 => s2
  | ExecResult.jump _ s2 => s2
  | ExecResult.fatal _ s2 => s2
  | ExecResult.thrown _ s2 => s2

/-- The state carried by an arithmetic-evaluation result (the ok case
mutates nothing). -/
def opStateOf (s : Interp) : OpResult → Interp
  | OpResult.ok _ => s
  | OpResult.fatal _ s2 => s2
  | OpResult.thrown _ s2 => s2

/-- Arithmetic evaluation never moves the tracked components. -/
theorem evaluate_operation_preserves (s : Interp) (op : String) (toks : List Tok) :
    sameStacks (opStateOf s (evaluate_operation s op toks)) s := by
  rcases toks with _ | ⟨t1, _ | ⟨t2, _ | ⟨t3, ts⟩⟩⟩
  · simp [evaluate_operation, opStateOf, sameStacks]
  · simp [evaluate_operation, opStateOf, sameStacks]
  · cases h1 : opValue s op t1 with
    | error e => simp [evaluate_operation, h1, opStateOf, sameStacks]
    | ok v1 =>
      cases h2 : opValue s op t2 with
      | error e => simp [evaluate_operation, h1, h2, opStateOf, sameStacks]
      | ok v2 =>
        simp only [evaluate_operation, h1, h2]
        by_cases hA : op = "ADDE"
        · simp only [hA, reduceIte]
          cases pyAdd v1 v2 <;> simp [opStateOf, sameStacks]
        · rw [if_neg hA]
          by_cases hB : op = "DEME"
          · simp only [hB, reduceIte]
            cases pySub v1 v2 <;> simp [opStateOf, sameStacks]
          · rw [if_neg hB]
            by_cases hC : op = "MVLTIPLICA"
            · simp only [hC, reduceIte]
              cases pyMul v1 v2 <;> simp [opStateOf, sameStacks]
            · rw [if_neg hC]
              by_cases hD : op = "DVCE"
              · simp only [hD, reduceIte]
                by_cases hz : pyEq v2 (Value.int 0) = true
                · rw [if_pos hz]
                  by_cases hh : s.exceptionHandlers.isEmpty = true
                  · rw [if_pos hh]
                    simp [opStateOf, sameStacks]
                  · rw [if_neg hh]
                    cases hf : s.exceptionHandlers.find? (fun p => p.1 == "ERROR") with
                    | none => simp [opStateOf, sameStacks]
                    | some pr => simp [opStateOf, sameStacks]
                · rw [if_neg hz]
                  cases pyFloorDiv v1 v2 <;> simp [opStateOf, sameStacks]
              · rw [if_neg hD]
                simp [opStateOf, sameStacks]
  · simp [evaluate_operation, opStateOf, sameStacks]

/-- The SIT handler never moves the tracked components. -/
theorem execSIT_preserves (s : Interp) (rest : List Tok) :
    sameStacks (stateOf (execSIT s rest)) s := by
  unfold execSIT
  split
  · dsimp only
    split_ifs <;> simp [stateOf, sameStacks]
  · simp [stateOf, sameStacks]

/-- The SCRIBE handler never moves the tracked components. -/
theorem execSCRIBE_preserves (s : Interp) (rest : List Tok) :
    sameStacks (stateOf (execSCRIBE s rest)) s := by
  unfold execSCRIBE
  repeat' split
  all_goals try dsimp only
  repeat' split
  all_goals simp [stateOf, sameStacks]

/-- The AVDI/NOTA handler never moves the tracked components. -/
theorem execDebugPrint_preserves (s : Interp) (tag latinName : String) (rest : List Tok) :
    sameStacks (stateOf (execDebugPrint s tag latinName rest)) s := by
  unfold execDebugPrint
  repeat' split
  all_goals try dsimp only
  repeat' split
  all_goals simp [stateOf, sameStacks]

/-- The LEGO handler never moves the tracked components. -/
theorem execLEGO_preserves (s : Interp) (rest : List Tok) :
    sameStacks (stateOf (execLEGO s rest)) s := by
  unfold execLEGO
  repeat' split
  all_goals try dsimp only
  repeat' split
  all_goals simp [stateOf, sameStacks]

/-- Field assignment never moves the tracked components. -/
theorem execFieldAssign_preserves (s : Interp) (f o : String) (rhs : List Tok) :
    sameStacks (stateOf (execFieldAssign s f o rhs)) s := by
  unfold execFieldAssign setField
  repeat' split
  all_goals try dsimp only
  repeat' split
  all_goals simp [stateOf, sameStacks]

/-- Assignment without a VOCA right-hand side never moves the tracked
components. -/
theorem execAssign_preserves (s : Interp) (v : String) (rhs : List Tok)
    (hvoca : rhs.contains (Tok.keyword "VOCA") = false) :
    sameStacks (stateOf (execAssign s v rhs)) s := by
  unfold execAssign
  by_cases hdecl : (alistGet s.vars v).isNone
  · simp [hdecl, stateOf, sameStacks]
  · rw [if_neg hdecl]
    match rhs with
    | [] => simp [stateOf, sameStacks]
    | [Tok.string str] => simp [stateOf, sameStacks]
    | [Tok.number n] => simp [stateOf, sameStacks]
    | [Tok.keyword kw] => simp [stateOf, sameStacks]
    | [Tok.genitive g] => simp [stateOf, sameStacks]
    | [Tok.var src] =>
      cases hsrc : alistGet s.vars src <;> simp [hsrc, stateOf, sameStacks]
    | Tok.keyword kw :: op1 :: ops =>
      dsimp only
      have hkw : ¬ (kw = "VOCA") := by
        intro h
        subst h
        simp [List.contains_cons] at hvoca
      by_cases h1 : kw = "IVNGE"
      · subst h1
        simp only [reduceIte]
        cases hc : evaluate_concatenation s (op1 :: ops) <;>
          simp [hc, stateOf, sameStacks]
      · rw [if_neg h1]
        by_cases h2 : kw = "INCIPITCVM" ∨ kw = "FINITVRCVM" ∨ kw = "CONTINET" ∨ kw = "INDICEDE"
        · have hb : (kw = "INCIPITCVM" || kw = "FINITVRCVM" || kw = "CONTINET" || kw = "INDICEDE") = true := by
            rcases h2 with h | h | h | h <;> simp [h]
          rw [if_pos (by simpa using hb)]
          cases hc : evaluate_string_operation s kw (op1 :: ops) <;>
            simp [hc, stateOf, sameStacks]
        · push_neg at h2
          obtain ⟨ha, hb2, hc2, hd2⟩ := h2
          rw [if_neg (by simp [ha, hb2, hc2, hd2])]
          by_cases h3 : kw = "ADDE" ∨ kw = "DEME" ∨ kw = "MVLTIPLICA" ∨ kw = "DVCE"
          · have hb : (kw = "ADDE" || kw = "DEME" || kw = "MVLTIPLICA" || kw = "DVCE") = true := by
              rcases h3 with h | h | h | h <;> simp [h]
            rw [if_pos (by simpa using hb)]
            have hop := evaluate_operation_preserves s kw (op1 :: ops)
            cases hres : evaluate_operation s kw (op1 :: ops) with
            | ok w => simp [hres, stateOf, sameStacks]
            | fatal e s2 =>
              rw [hres] at hop
              simp only [hres]
              simpa [stateOf, opStateOf] using hop
            | thrown h s2 =>
              rw [hres] at hop
              simp only [hres]
              simpa [stateOf, opStateOf] using hop
          · push_neg at h3
            obtain ⟨he, hf, hg, hh⟩ := h3
            rw [if_neg (by simp [he, hf, hg, hh])]
            rw [if_neg hkw]
            simp [stateOf, sameStacks]
    | Tok.var x :: t :: ts => simp [stateOf, sameStacks]
    | Tok.genitive g :: t :: ts => simp [stateOf, sameStacks]
    | Tok.number n :: t :: ts => simp [stateOf, sameStacks]
    | Tok.string str :: t :: ts => simp [stateOf, sameStacks]

/-- sameStacks is reflexive. -/
theorem sameStacks_refl (s : Interp) : sameStacks s s := ⟨rfl, rfl, rfl, rfl⟩

/-- sameStacks is transitive. -/
theorem sameStacks_trans {a b c : Interp} (h1 : sameStacks a b) (h2 : sameStacks b c) :
    sameStacks a c :=
  ⟨h1.1.trans h2.1, h1.2.1.trans h2.2.1, h1.2.2.1.trans h2.2.2.1, h1.2.2.2.trans h2.2.2.2⟩

/-- contains is monotone under tail. -/
theorem containsTokTail (t : Tok) (l : List Tok) (a : Tok)
    (h : List.contains (t :: l) a = false) : List.contains l a = false := by
  simp only [List.contains_cons, Bool.or_eq_false_iff] at h
  exact h.2

/-- A non-control statement preserves the tracked components: the
dispatcher routes it to a handler that moves neither the block depth nor
the loop or call stacks. -/
theorem executeTokens_preserves (toks : List Tok) (s : Interp)
    (h : nonControl toks = true) :
    sameStacks (stateOf (executeTokens toks s)) s := by
  cases toks with
  | nil => simp [executeTokens, stateOf, sameStacks]
  | cons t0 rest =>
    unfold nonControl at h
    rw [Bool.and_eq_true] at h
    obtain ⟨h1, h2⟩ := h
    replace h2 : List.contains (t0 :: rest) (Tok.keyword "VOCA") = false := by
      simpa using h2
    have hhead : controlHead t0 = false := by
      cases hcb : controlHead t0
      · rfl
      · dsimp only at h1
        rw [hcb] at h1
        simp at h1
    cases t0 with
    | keyword k =>
      have hbad : badHead k = false := by
        simpa [controlHead] using hhead
      have hne : ∀ x : String, badHead x = true → ¬ (k = x) := by
        intro x hx hcon
        rw [← hcon, hbad] at hx
        exact Bool.noConfusion hx
      simp only [executeTokens]
      rw [if_neg (by simpa using hne "FINIS" (by decide))]
      by_cases hskip : s.skipExecution
      · rw [if_pos hskip]
        simp [stateOf, sameStacks]
      · rw [if_neg hskip]
        by_cases hSIT : Tok.keyword k = Tok.keyword "SIT"
        · rw [if_pos hSIT]
          exact execSIT_preserves s rest
        · rw [if_neg hSIT]
          by_cases hSCR : Tok.keyword k = Tok.keyword "SCRIBE"
          · rw [if_pos hSCR]
            exact execSCRIBE_preserves s rest
          · rw [if_neg hSCR]
            by_cases hAVDI : Tok.keyword k = Tok.keyword "AVDI"
            · rw [if_pos hAVDI]
              exact execDebugPrint_preserves s "[DEBUG] " "AVDI" rest
            · rw [if_neg hAVDI]
              by_cases hNOTA : Tok.keyword k = Tok.keyword "NOTA"
              · rw [if_pos hNOTA]
                exact execDebugPrint_preserves s "[LOG] " "NOTA" rest
              · rw [if_neg hNOTA]
                by_cases hLEGO : Tok.keyword k = Tok.keyword "LEGO"
                · rw [if_pos hLEGO]
                  exact execLEGO_preserves s rest
                · rw [if_neg hLEGO]
                  rw [if_neg (by simpa using hne "IACE" (by decide))]
                  rw [if_neg (by simpa using hne "CAPE" (by decide))]
                  rw [if_neg (by simpa using hne "FAC" (by decide))]
                  rw [if_neg (by simpa using hne "REDDO" (by decide))]
                  rw [if_neg (by simpa using hne "DUM" (by decide))]
                  rw [if_neg (by simpa using hne "ALITER" (by decide))]
                  rw [if_neg (by simpa using hne "SI" (by decide))]
                  simp [stateOf, sameStacks]
    | genitive g =>
      have hgk : ∀ x, (Tok.genitive g = Tok.keyword x) = False := fun x => by simp
      simp only [executeTokens, hgk, if_false]
      by_cases hskip : s.skipExecution
      · rw [if_pos hskip]
        simp [stateOf, sameStacks]
      · rw [if_neg hskip]
        simp [stateOf, sameStacks]
    | number n =>
      have hgk : ∀ x, (Tok.number n = Tok.keyword x) = False := fun x => by simp
      simp only [executeTokens, hgk, if_false]
      by_cases hskip : s.skipExecution
      · rw [if_pos hskip]
        simp [stateOf, sameStacks]
      · rw [if_neg hskip]
        simp [stateOf, sameStacks]
    | string str =>
      have hgk : ∀ x, (Tok.string str = Tok.keyword x) = False := fun x => by simp
      simp only [executeTokens, hgk, if_false]
      by_cases hskip : s.skipExecution
      · rw [if_pos hskip]
        simp [stateOf, sameStacks]
      · rw [if_neg hskip]
        simp [stateOf, sameStacks]
    | var v =>
      have hgk : ∀ x, (Tok.var v = Tok.keyword x) = False := fun x => by simp
      simp only [executeTokens, hgk, if_false]
      by_cases hskip : s.skipExecution
      · rw [if_pos hskip]
        simp [stateOf, sameStacks]
      · rw [if_neg hskip]
        rcases rest with _ | ⟨t1, rest2⟩
        · simp [stateOf, sameStacks]
        · cases t1 with
          | genitive o =>
            rcases rest2 with _ | ⟨t2, rest3⟩
            · simp [stateOf, sameStacks]
            · cases t2 with
              | keyword k2 =>
                by_cases hEST : k2 = "EST"
                · subst hEST
                  exact execFieldAssign_preserves s v o rest3
                · simp [hEST, stateOf, sameStacks]
              | genitive g2 => simp [stateOf, sameStacks]
              | var v2 => simp [stateOf, sameStacks]
              | number n2 => simp [stateOf, sameStacks]
              | string s2 => simp [stateOf, sameStacks]
          | keyword k1 =>
            by_cases hEST : k1 = "EST"
            · subst hEST
              rcases rest2 with _ | ⟨x, rhs2⟩
              · simp [stateOf, sameStacks]
              · have hv2 : List.contains (x :: rhs2) (Tok.keyword "VOCA") = false :=
                  containsTokTail _ _ _ (containsTokTail _ _ _ h2)
                exact execAssign_preserves s v (x :: rhs2) hv2
            · simp [hEST, stateOf, sameStacks]
          | var v2 => simp [stateOf, sameStacks]
          | number n2 => simp [stateOf, sameStacks]
          | string s2 => simp [stateOf, sameStacks]

/-- The run is straight-line: every executed statement (re-tokenized
exactly as the loop does, against the current table and declared set)
is non-control.  Mirrors runLoop step for step. -/
def straightRun : Nat → Interp → Bool
  | 0, _ => true
  | fuel + 1, s =>
    if s.lineIndex < s.lines.length then
      let line := runStrip (s.lines.getD s.lineIndex "")
      if line = "" then straightRun fuel { s with lineIndex := s.lineIndex + 1 }
      else
        match tokenize_line s.table s.declared line with
        | Except.error _ => true
        | Except.ok toks =>
          nonControl toks &&
            (match executeTokens toks s with
             | ExecResult.next s2 => straightRun fuel { s2 with lineIndex := s2.lineIndex + 1 }
             | ExecResult.jump t s2 => straightRun fuel { s2 with lineIndex := t }
             | ExecResult.thrown t s2 => straightRun fuel { s2 with lineIndex := t }
             | ExecResult.fatal _ _ => true)
    else true

/-- Straight-line runs preserve the tracked components from any start
state. -/
theorem runLoop_straight (fuel : Nat) : ∀ s s2 : Interp,
    straightRun fuel s = true → runLoop fuel s = RunOutcome.done s2 →
    sameStacks s2 s := by
  induction fuel with
  | zero =>
    intro s s2 _ hrun
    simp [runLoop] at hrun
  | succ n ih =>
    intro s s2 hstraight hrun
    simp only [runLoop] at hrun
    simp only [straightRun] at hstraight
    by_cases hlt : s.lineIndex < s.lines.length
    · rw [if_pos hlt] at hrun hstraight
      try dsimp only at hrun hstraight
      by_cases hline : runStrip (s.lines.getD s.lineIndex "") = ""
      · rw [if_pos hline] at hrun hstraight
        have := ih _ _ hstraight hrun
        exact sameStacks_trans this (by simp [sameStacks])
      · rw [if_neg hline] at hrun hstraight
        cases htok : tokenize_line s.table s.declared (runStrip (s.lines.getD s.lineIndex "")) with
        | error e =>
          rw [execute_line] at hrun
          rw [htok] at hrun hstraight
          simp at hrun
        | ok toks =>
          rw [execute_line] at hrun
          rw [htok] at hrun hstraight
          try dsimp only at hrun
          rw [Bool.and_eq_true] at hstraight
          obtain ⟨hnc, hrest⟩ := hstraight
          have hpres := executeTokens_preserves toks s hnc
          cases hexec : executeTokens toks s with
          | next s3 =>
            rw [hexec] at hrun hrest hpres
            try dsimp only at hrun hrest hpres
            have hnext := ih _ _ hrest hrun
            have h34 : sameStacks s3 s := by simpa [stateOf] using hpres
            exact sameStacks_trans hnext (sameStacks_trans ⟨rfl, rfl, rfl, rfl⟩ h34)
          | jump t s3 =>
            rw [hexec] at hrun hrest hpres
            try dsimp only at hrun hrest hpres
            have hnext := ih _ _ hrest hrun
            have h34 : sameStacks s3 s := by simpa [stateOf] using hpres
            exact sameStacks_trans hnext (sameStacks_trans ⟨rfl, rfl, rfl, rfl⟩ h34)
          | thrown t s3 =>
            rw [hexec] at hrun hrest hpres
            try dsimp only at hrun hrest hpres
            have hnext := ih _ _ hrest hrun
            have h34 : sameStacks s3 s := by simpa [stateOf] using hpres
            exact sameStacks_trans hnext (sameStacks_trans ⟨rfl, rfl, rfl, rfl⟩ h34)
          | fatal e s3 =>
            rw [hexec] at hrun
            simp at hrun
    · rw [if_neg hlt] at hrun
      simp only [RunOutcome.done.injEq] at hrun
      subst hrun
      exact sameStacks_refl s

/-- C5 amended: for a straight-line run (every executed statement has a
non-control head and no VOCA), a completed run ends with block depth 0
and empty loop and call stacks. -/
theorem c5_amended (fuel : Nat) (lines : List String)
    (hstraight : straightRun fuel (initState lines []) = true) :
    ∀ r ∈ finalStacks (runProgram fuel lines), r = (0, 0, 0) := by
  intro r hr
  unfold runProgram at hr
  cases hrun : runLoop fuel (initState lines []) with
  | done s2 =>
    rw [hrun] at hr
    simp only [finalStacks, Option.mem_def, Option.some.injEq] at hr
    have hss := runLoop_straight fuel (initState lines []) s2 hstraight hrun
    obtain ⟨hb, hl, hc, _⟩ := hss
    subst hr
    simp [initState] at hb hl hc
    simp [hb, hl, hc]
  | fatal msg s2 =>
    rw [hrun] at hr
    simp [finalStacks] at hr
  | outOfFuel s2 =>
    rw [hrun] at hr
    simp [finalStacks] at hr

/-- C5 amended witness. -/
theorem c5_amended_witness :
    straightRun 10 (initState ["SITAQUA", "SCRIBEAQUA"] []) = true ∧
    ∀ r ∈ finalStacks (runProgram 10 ["SITAQUA", "SCRIBEAQUA"]), r = (0, 0, 0) :=
  ⟨by decide, c5_amended 10 ["SITAQUA", "SCRIBEAQUA"] (by decide)⟩

/-- C8: declension-table round trip: for every nominative N in the
built-in table and every oblique case, the oblique form exists and
get_nominative maps it back to N. -/
theorem c8_declension_roundtrip :
    ∀ p ∈ DECLENSIONS,
      ∀ c ∈ [NounCase.gen, NounCase.acc, NounCase.dat, NounCase.abl, NounCase.voc],
      (get_oblique DECLENSIONS p.1 c).map (get_nominative DECLENSIONS) =
        some (some p.1) := by
  decide

/-- C8 witness: the round trip at NUMERUS, genitive case. -/
theorem c8_declension_roundtrip_witness :
    (get_oblique DECLENSIONS "NUMERUS" NounCase.gen).map (get_nominative DECLENSIONS) =
      some (some "NUMERUS") :=
  c8_declension_roundtrip ("NUMERUS", ⟨"NUMERI", "NUMERUM", "NUMERO", "NUMERO", "NUMERE"⟩)
    (by decide) NounCase.gen (by decide)

/-! ## Claim C9 -/

/-- C9 counterexample: IVNGE with a literal Number token as an operand
does not succeed: evaluate_concatenation only accepts STRING and
VARIABLE tokens, so the literal integer operand raises the IVNGE type
error instead of being formatted as a Roman numeral. -/
theorem c9_counterexample :
    evaluate_concatenation (initState [] []) [Tok.number 5, Tok.string "A"] =
      Except.error "ERRATUM: IVNGE requirit textum aut variabiles" := by
  rfl

/-- The operand forms the amended C9 claim accepts, with the string each
contributes: a string literal, a declared variable holding an Integer
(formatted as a Roman numeral), or a declared variable holding a String. -/
def ivngeOperand (s : Interp) (t : Tok) (x : String) : Prop :=
  (∃ str, t = Tok.string str ∧ x = str) ∨
  (∃ v n, t = Tok.var v ∧ alistGet s.vars v = some (Value.int n) ∧ x = to_roman n) ∨
  (∃ v str, t = Tok.var v ∧ alistGet s.vars v = some (Value.str str) ∧ x = str)

/-- C9 (amended): IVNGE always succeeds when each operand is a string
literal or a declared variable holding an Integer or a String — Integer
variables are formatted via the Roman codec and the result is the String
concatenation — but a literal Number operand is rejected with the IVNGE
type error. -/
theorem c9_ivnge_concatenation :
    (∀ (s : Interp) (t1 t2 : Tok) (x1 x2 : String),
      ivngeOperand s t1 x1 → ivngeOperand s t2 x2 →
      evaluate_concatenation s [t1, t2] = Except.ok (Value.str (x1 ++ x2))) ∧
    (∀ (s : Interp) (n : Int) (t : Tok),
      evaluate_concatenation s [Tok.number n, t] =
        Except.error (errMsg s "IVNGE requirit textum aut variabiles"
          "IVNGE requires strings or variables")) := by
  constructor
  · intro s t1 t2 x1 x2 h1 h2
    have e1 : concatValue s t1 = Except.ok (Value.str x1) := by
      rcases h1 with ⟨str, rfl, rfl⟩ | ⟨v, n, rfl, hv, rfl⟩ | ⟨v, str, rfl, hv, rfl⟩
      · simp [concatValue]
      · simp [concatValue, hv]
      · simp [concatValue, hv]
    have e2 : concatValue s t2 = Except.ok (Value.str x2) := by
      rcases h2 with ⟨str, rfl, rfl⟩ | ⟨v, n, rfl, hv, rfl⟩ | ⟨v, str, rfl, hv, rfl⟩
      · simp [concatValue]
      · simp [concatValue, hv]
      · simp [concatValue, hv]
    simp [evaluate_concatenation, e1, e2, pyAdd]
  · intro s n t
    simp [evaluate_concatenation, concatValue]

/-- C9 witness: a Roman-formatted Integer variable concatenated with a
string literal. -/
theorem c9_ivnge_concatenation_witness :
    evaluate_concatenation { initState [] [] with vars := [("AQUA", Value.int 4)] }
      [Tok.var "AQUA", Tok.string "X"] = Except.ok (Value.str ("IV" ++ "X")) :=
  c9_ivnge_concatenation.1 _ (Tok.var "AQUA") (Tok.string "X") "IV" "X"
    (Or.inr (Or.inl ⟨"AQUA", 4, rfl, rfl, rfl⟩)) (Or.inl ⟨"X", rfl, rfl⟩)

/-! ## Claim C10 -/

/-- v is already a member of the declared set, so addSet keeps it as is. -/
theorem addSet_of_mem (l : List String) (v : String) (h : l.contains v = true) :
    addSet l v = l := by
  unfold addSet
  rw [h]
  simp

/-- C10: SIT on an already-declared name is not an error: it resets the
variable to Integer 0, leaves the declared set unchanged, and leaves the
declension table unchanged (the already-present entry is kept). -/
theorem c10_sit_redeclare (s : Interp) (v : String)
    (hskip : s.skipExecution = false)
    (hdecl : s.declared.contains v = true)
    (htab : s.table.any (fun p => p.1 == v) = true) :
    executeTokens [Tok.keyword "SIT", Tok.var v] s =
      ExecResult.next { s with vars := alistSet s.vars v (Value.int 0) } := by
  simp [executeTokens, hskip, execSIT, htab, addSet_of_mem _ _ hdecl]

/-! ## Claim C3 -/

/-- The catchable division-by-zero scenario (spec scenario 5),
separator-free and with ERROR declared so that CAPEERROR tokenizes. -/
def progC3caught : List String :=
  ["SITERROR", "SITSUMMA", "CAPEERROR", "SCRIBE\"CAPTUS\"", "FINIS", "SUMMAESTDVCEXNIHIL"]

/-- The variant without a CAPE block. -/
def progC3uncaught : List String :=
  ["SITSUMMA", "SUMMAESTDVCEXNIHIL"]

/-- C3: evaluating DVCE with divisor 0 never returns an integer: when an
ERROR handler is on the exception stack the catchable exception is thrown
toward the most recent ERROR handler body (recording the exception and
its continuation line), and otherwise the result is the fatal Divisio per
nihil error.  At run level, the protected scenario prints CAPTUS and the
unprotected variant dies on its division line with the Latin message
(exit status 1). -/
theorem c3_dvce_division_by_zero :
    (∀ (s : Interp) (t1 t2 : Tok) (v1 : Value),
      opValue s "DVCE" t1 = Except.ok v1 →
      opValue s "DVCE" t2 = Except.ok (Value.int 0) →
      evaluate_operation s "DVCE" [t1, t2] =
        match s.exceptionHandlers.find? (fun p => p.1 == "ERROR") with
        | some p => OpResult.thrown p.2
            { s with currentException := some ("ERROR", "Divisio per nihil"),
                     exceptionThrowLine := some (s.lineIndex + 1) }
        | none => OpResult.fatal (errMsg s "Divisio per nihil" "Division by zero") s) ∧
    stdoutOf (runProgram 100 progC3caught) = some ["CAPTUS"] ∧
    fatalOf (runProgram 100 progC3uncaught) = some "Error on line 2: ERRATUM: Divisio per nihil" := by
  refine ⟨?_, rfl, rfl⟩
  intro s t1 t2 v1 h1 h2
  simp only [evaluate_operation]
  rw [h1, h2]
  simp only [pyEq, String.reduceEq, reduceIte, beq_self_eq_true, Int.reduceEq, Nat.reduceAdd]
  cases hh : s.exceptionHandlers with
  | nil => simp
  | cons a l => simp [List.isEmpty]

/-- C3 witness: dividing 10 by a zero-valued NIHIL literal in a state with
one installed ERROR handler at line 7. -/
theorem c3_dvce_division_by_zero_witness :
    evaluate_operation { initState [] [] with exceptionHandlers := [("ERROR", 7)] }
        "DVCE" [Tok.number 10, Tok.number 0] =
      OpResult.thrown 7
        { { initState [] [] with exceptionHandlers := [("ERROR", 7)] } with
          currentException := some ("ERROR", "Divisio per nihil"),
          exceptionThrowLine := some 1 } :=
  c3_dvce_division_by_zero.1 { initState [] [] with exceptionHandlers := [("ERROR", 7)] }
    (Tok.number 10) (Tok.number 0) (Value.int 10) rfl rfl

/-! ## Claim C4 -/

/-- A program with a nested call: DOMINUS is called with destination
SUMMA; its body calls REX with destination AQUA and then returns X (ten).
The claim predicts the outer return value lands in SUMMA; the code
instead writes it to AQUA, the destination of the inner call, because
REDDO reads the single __CALLING_VAR__ slot from the environment in
force at return time. -/
def progC4 : List String :=
  ["SITREX", "SITDOMINUS", "SITSUMMA", "SITAQUA",
   "FACREX", "REDDOI", "FINIS",
   "FACDOMINUS", "AQUAESTVOCAREX", "REDDOX", "FINIS",
   "SUMMAESTVOCADOMINUS", "SCRIBEAQUA"]

/-- C4 counterexample: after the nested-call program completes, the value
X returned by DOMINUS was not written to SUMMA (the destination recorded
by the matching call, which remains Integer 0); it was written to AQUA,
and the program prints X. -/
theorem c4_counterexample :
    stdoutOf (runProgram 100 progC4) = some ["X"] ∧
    finalVar (runProgram 100 progC4) "SUMMA" = some (Value.int 0) ∧
    finalVar (runProgram 100 progC4) "AQUA" = some (Value.int 10) := by
  refine ⟨rfl, rfl, rfl⟩

/-- C4 (amended): REDDO with a non-empty call stack pops the top frame,
restores that frame's snapshot, and jumps to the frame's caller line plus
one; but the destination variable written is the one currently named by
the process-wide __CALLING_VAR__ slot of the environment at the moment of
return — which is the destination recorded by the matching call only when
the function body performed no further call that overwrote the slot.  If
the slot is absent no destination is written.  REDDO with an empty call
stack is the fatal REDDO-extra-functionem error. -/
theorem c4_reddo_semantics :
    (∀ (s : Interp) (t : Tok) (v : Value) (f : Frame) (fs : List Frame) (c : String),
      s.skipExecution = false →
      s.callStack = f :: fs →
      reddoValue s t = Except.ok v →
      alistGet s.vars "__CALLING_VAR__" = some (Value.str c) → c ≠ "" →
      executeTokens [Tok.keyword "REDDO", t] s =
        ExecResult.jump (f.returnLine + 1)
          { s with callStack := fs, vars := alistSet f.savedVars c v }) ∧
    (∀ (s : Interp) (t : Tok) (v : Value) (f : Frame) (fs : List Frame),
      s.skipExecution = false →
      s.callStack = f :: fs →
      reddoValue s t = Except.ok v →
      alistGet s.vars "__CALLING_VAR__" = none →
      executeTokens [Tok.keyword "REDDO", t] s =
        ExecResult.jump (f.returnLine + 1) { s with callStack := fs, vars := f.savedVars }) ∧
    (∀ (s : Interp) (t : Tok) (v : Value),
      s.skipExecution = false →
      s.callStack = [] →
      reddoValue s t = Except.ok v →
      executeTokens [Tok.keyword "REDDO", t] s =
        ExecResult.fatal (errMsg s "REDDO extra functionem" "REDDO outside function") s) := by
  refine ⟨?_, ?_, ?_⟩
  · intro s t v f fs c hskip hcs hval hslot hc
    simp [executeTokens, hskip, execREDDO, hval, hcs, hslot, hc]
  · intro s t v f fs hskip hcs hval hslot
    simp [executeTokens, hskip, execREDDO, hval, hcs, hslot]
  · intro s t v hskip hcs hval
    simp [executeTokens, hskip, execREDDO, hval, hcs]

/-- A concrete REDDO state: one call frame with caller line 5, snapshot
holding V, and the __CALLING_VAR__ slot naming V. -/
def c4State : Interp :=
  { initState [] [] with
    vars := [("V", Value.int 0), ("__CALLING_VAR__", Value.str "V")],
    callStack := [⟨5, [("V", Value.int 0)]⟩] }

/-- C4 witness: returning X (ten) from the frame writes it to V in the
restored snapshot and jumps to line 6. -/
theorem c4_reddo_semantics_witness :
    executeTokens [Tok.keyword "REDDO", Tok.number 10] c4State =
      ExecResult.jump 6
        { c4State with callStack := [],
                       vars := alistSet [("V", Value.int 0)] "V" (Value.int 10) } :=
  c4_reddo_semantics.1 c4State (Tok.number 10) (Value.int 10)
    ⟨5, [("V", Value.int 0)]⟩ [] "V" rfl rfl rfl rfl (by decide)

/-! ## Claim C7 -/

/-- A DUM loop whose MAIVS comparison runs on two String values: the
loop is entered on the first test (B greater than A lexicographically),
the body reassigns ROSA to Z, and the second test exits the loop.  The
run completes without any error. -/
def progC7 : List String :=
  ["SITAQUA", "SITROSA", "AQUAEST\"B\"", "ROSAEST\"A\"",
   "DUMAQUAMAIVSROSA", "ROSAEST\"Z\"", "FINIS"]

/-- C7 counterexample: executing DUM with MAIVS on two String operands
does not produce the type-mismatch error: the program completes
normally, and its loop body ran (ROSA ends as Z), so the loop was
entered by lexicographic string comparison. -/
theorem c7_counterexample :
    stdoutOf (runProgram 100 progC7) = some [] ∧
    finalVar (runProgram 100 progC7) "ROSA" = some (Value.str "Z") ∧
    finalVar (runProgram 100 progC7) "AQUA" = some (Value.str "B") := by
  refine ⟨rfl, rfl, rfl⟩

/-- C7 (amended): DUM evaluates AEQUAT exactly as SI does, but for MAIVS
(and MINOR) it performs no Integer type check: with two String operands
the loop condition is decided by raw lexicographic comparison and the
loop is entered normally (pushing a loop frame and incrementing the
depth), whereas the same comparison under SI raises the MAIVS
type-mismatch error. -/
theorem c7_dum_comparison :
    (∀ (l r : Value), dumCondition "AEQUAT" l r = Except.ok (pyEq l r) ∧
      ∀ (s : Interp), siCondition s "AEQUAT" l r = Except.ok (pyEq l r)) ∧
    (∀ (s : Interp) (a b x y : String),
      s.skipExecution = false →
      alistGet s.vars a = some (Value.str x) →
      alistGet s.vars b = some (Value.str y) →
      strLt y.data x.data = true →
      executeTokens [Tok.keyword "DUM", Tok.var a, Tok.keyword "MAIVS", Tok.var b] s =
        ExecResult.next { s with loopStarts := (s.lineIndex, s.blockDepth) :: s.loopStarts,
                                 blockDepth := s.blockDepth + 1 }) ∧
    (∀ (s : Interp) (a b x y : String),
      s.skipExecution = false →
      alistGet s.vars a = some (Value.str x) →
      alistGet s.vars b = some (Value.str y) →
      executeTokens [Tok.keyword "SI", Tok.var a, Tok.keyword "MAIVS", Tok.var b] s =
        ExecResult.fatal (errMsg s "MAIVS requirit numeros" "MAIVS requires numbers") s) := by
  refine ⟨?_, ?_, ?_⟩
  · intro l r
    exact ⟨rfl, fun s => rfl⟩
  · intro s a b x y hskip hx hy hyx
    simp [executeTokens, hskip, execDUM, tokName, hx, dumRight, hy, dumCondition, pyGT, hyx]
  · intro s a b x y hskip hx hy
    simp [executeTokens, hskip, execSI, tokName, hx, siRight, hy, siCondition, isInt]

/-- A concrete state with two declared String variables. -/
def c7State : Interp :=
  { initState [] [] with vars := [("AQUA", Value.str "B"), ("ROSA", Value.str "A")] }

/-- C7 witness: DUM AQUA MAIVS ROSA on String values B and A enters the
loop. -/
theorem c7_dum_comparison_witness :
    executeTokens [Tok.keyword "DUM", Tok.var "AQUA", Tok.keyword "MAIVS", Tok.var "ROSA"]
        c7State =
      ExecResult.next { c7State with loopStarts := (c7State.lineIndex, c7State.blockDepth) :: c7State.loopStarts,
                                     blockDepth := c7State.blockDepth + 1 } :=
  c7_dum_comparison.2.1 c7State "AQUA" "ROSA" "B" "A" rfl rfl rfl (by decide)

/-- A concrete state in which AQUA is declared and holds a String. -/
def c10State : Interp :=
  { initState [] [] with declared := ["AQUA"], vars := [("AQUA", Value.str "Q")] }

/-- C10 witness: redeclaring AQUA (previously holding a String) resets it
to Integer 0 in a concrete state. -/
theorem c10_sit_redeclare_witness :
    executeTokens [Tok.keyword "SIT", Tok.var "AQUA"] c10State =
      ExecResult.next { c10State with vars := alistSet c10State.vars "AQUA" (Value.int 0) } :=
  c10_sit_redeclare c10State "AQUA" rfl (by decide) (by decide)

end Latin
